import Mathlib

/-!
Jump analysis sample: the hand-raised detector

A shallow embedding of `HandRaisedDetector` (HandRaisedDetector.h / HandRaisedDetector.cpp)
and of `ProcessArguments` (main.cpp) from `body-tracking-samples/jump_analysis_sample`.

Modelling conventions

* Joint coordinates are C `float`s, taken as IEEE 754 binary32.  A coordinate is
  modelled by the rational value of a finite `float`; infinite and NaN coordinates are
  outside the model.  Comparing two coordinates compares their values.  The subtraction
  of two coordinates and the conversion of the `int` level to `float` round to the
  nearest binary32 value, ties to even (`float32Round`), every operation being rounded to
  `float`; a result that overflows to an infinity is represented by `2^128` or `-2^128`,
  which compares with the finite values as the infinity does.
* `std::chrono::microseconds` is a signed 64-bit tick count.  It is modelled by `Int`;
  every arithmetic result is passed through `wrapInt64` (two's complement wrap-around),
  and the `uint64_t` timestamp is converted by `microseconds`.  Signed overflow is
  undefined in C++; the statements about sequences of frames bound the timestamps so that
  no result leaves the `int64_t` range, and the other statements do not depend on the
  value an overflowing operation yields.
* The object state is passed explicitly: every member function takes the detector and
  returns the updated detector.
-/

namespace JumpAnalysis

/-! ## Data model -/

/-- The `xyz` view of `k4a_float3_t`. -/
structure k4a_float3_t where
  x : ℚ
  y : ℚ
  z : ℚ

/-- The joints of `k4abt_joint_id_t` that `UpdateData` reads. -/
inductive k4abt_joint_id_t where
  | K4ABT_JOINT_WRIST_LEFT
  | K4ABT_JOINT_WRIST_RIGHT
  | K4ABT_JOINT_HEAD
  | K4ABT_JOINT_ELBOW_LEFT
  | K4ABT_JOINT_ELBOW_RIGHT
  | K4ABT_JOINT_SHOULDER_LEFT
  | K4ABT_JOINT_SHOULDER_RIGHT
  | K4ABT_JOINT_HIP_LEFT
  | K4ABT_JOINT_HIP_RIGHT
  | K4ABT_JOINT_KNEE_LEFT
  | K4ABT_JOINT_KNEE_RIGHT
  | K4ABT_JOINT_FOOT_LEFT
  | K4ABT_JOINT_FOOT_RIGHT
  deriving DecidableEq

/-- The part of `k4abt_joint_t` that is read: the joint position. -/
structure k4abt_joint_t where
  position : k4a_float3_t

/-- The array `joints` of `k4abt_skeleton_t`, indexed by joint id. -/
structure k4abt_skeleton_t where
  joints : k4abt_joint_id_t → k4abt_joint_t

/-- The body handed to `UpdateData`. -/
structure k4abt_body_t where
  id : Nat
  skeleton : k4abt_skeleton_t

/-- The data members of `class HandRaisedDetector` (HandRaisedDetector.h:43-58).
The two durations are tick counts in microseconds. -/
structure HandRaisedDetector where
  m_level : Int
  m_key1Pressed : Bool
  m_key1Repeating : Bool
  m_key2Pressed : Bool
  m_key2Repeating : Bool
  m_key3Pressed : Bool
  m_key3Repeating : Bool
  m_key4Pressed : Bool
  m_key4Repeating : Bool
  m_key5Pressed : Bool
  m_key5Repeating : Bool
  m_key6Pressed : Bool
  m_key6Repeating : Bool
  m_bothHandsAreRaised : Bool
  m_handRaisedTimeSpan : Int
  m_previousTimestamp : Int

/-- The default member initialisers (HandRaisedDetector.h:43-58): a freshly constructed
detector. -/
def HandRaisedDetector.fresh : HandRaisedDetector where
  m_level := 0
  m_key1Pressed := false
  m_key1Repeating := false
  m_key2Pressed := false
  m_key2Repeating := false
  m_key3Pressed := false
  m_key3Repeating := false
  m_key4Pressed := false
  m_key4Repeating := false
  m_key5Pressed := false
  m_key5Repeating := false
  m_key6Pressed := false
  m_key6Repeating := false
  m_bothHandsAreRaised := false
  m_handRaisedTimeSpan := 0
  m_previousTimestamp := 0

/-- The constant `m_stableTime = std::chrono::seconds(2)` (HandRaisedDetector.h:59),
in microseconds, the unit it is converted to when compared with `m_handRaisedTimeSpan`. -/
def m_stableTime : Int := 2 * 1000000

/-! ## Machine arithmetic -/

/-- Two's complement reduction of an integer to the range of `int64_t`. -/
def wrapInt64 (v : Int) : Int := (v + 2 ^ 63) % 2 ^ 64 - 2 ^ 63

/-- The conversion `microseconds currentTimestamp(currentTimestampUsec)`
(HandRaisedDetector.cpp:48): a `uint64_t` stored in the signed 64-bit tick count. -/
def microseconds (currentTimestampUsec : Nat) : Int :=
  wrapInt64 ((currentTimestampUsec % 2 ^ 64 : Nat) : Int)

/-! ## Float arithmetic -/

/-- The nearest integer to a rational, ties to the even integer. -/
def roundHalfEven (x : ℚ) : ℤ :=
  if x - (⌊x⌋ : ℚ) < 1 / 2 then ⌊x⌋
  else if 1 / 2 < x - (⌊x⌋ : ℚ) then ⌊x⌋ + 1
  else if ⌊x⌋ % 2 = 0 then ⌊x⌋ else ⌊x⌋ + 1

/-- The binary32 exponent of a positive rational `a`: the largest `e` with `2^e <= a`, and
at least -126, the exponent of the subnormal values. -/
def float32Exponent (a : ℚ) : ℤ := max (Int.log 2 a) (-126)

/-- The rounding of a non-negative rational to the 24-bit significands of its binade, with
an unbounded exponent. -/
def float32Grid (a : ℚ) : ℚ :=
  (roundHalfEven (a / 2 ^ (float32Exponent a - 23)) : ℚ) * 2 ^ (float32Exponent a - 23)

/-- The binary32 value nearest to a non-negative rational; `2^128` stands for the infinity
that a rounded magnitude of `2^128` or more overflows to. -/
def float32Magnitude (a : ℚ) : ℚ := min (float32Grid a) (2 ^ 128)

/-- The binary32 value nearest to a rational, ties to even: the sign and the rounded
magnitude. -/
def float32Round (q : ℚ) : ℚ :=
  if 0 ≤ q then float32Magnitude q else -float32Magnitude (-q)

/-- The `float` subtraction `a - b`. -/
def float32Sub (a b : ℚ) : ℚ := float32Round (a - b)

/-- The conversion of an `int` to `float`. -/
def float32OfInt (n : Int) : ℚ := float32Round (n : ℚ)

/-! ## Member functions -/

/-- The accessor `AreBothHandsRaised()` (HandRaisedDetector.h:14). -/
def AreBothHandsRaised (d : HandRaisedDetector) : Bool := d.m_bothHandsAreRaised

/-- The accessor `Key1Pressed()` (HandRaisedDetector.h:16). -/
def Key1Pressed (d : HandRaisedDetector) : Bool := d.m_key1Pressed

/-- The accessor `Key2Pressed()` (HandRaisedDetector.h:20). -/
def Key2Pressed (d : HandRaisedDetector) : Bool := d.m_key2Pressed

/-- The mutator `setLevel(int level)` (HandRaisedDetector.h:40). -/
def setLevel (d : HandRaisedDetector) (level : Int) : HandRaisedDetector :=
  { d with m_level := level }

/-- The local `bothHandsAreRaised` of `UpdateData` (HandRaisedDetector.cpp:26-27):
both wrists have a strictly smaller `y` than the head. -/
def bothHandsAreRaised (selectedBody : k4abt_body_t) : Bool :=
  let leftWristJoint := (selectedBody.skeleton.joints .K4ABT_JOINT_WRIST_LEFT).position
  let rightWristJoint := (selectedBody.skeleton.joints .K4ABT_JOINT_WRIST_RIGHT).position
  let headJoint := (selectedBody.skeleton.joints .K4ABT_JOINT_HEAD).position
  decide (leftWristJoint.y < headJoint.y) && decide (rightWristJoint.y < headJoint.y)

/-- The two foot comparisons of `UpdateData` (HandRaisedDetector.cpp:29-39), executed one
after the other; each compares the `float` difference of the foot heights with `m_level`
converted to `float`. -/
def updateKeys (d : HandRaisedDetector) (selectedBody : k4abt_body_t) : HandRaisedDetector :=
  let leftFoot := (selectedBody.skeleton.joints .K4ABT_JOINT_FOOT_LEFT).position
  let rightFoot := (selectedBody.skeleton.joints .K4ABT_JOINT_FOOT_RIGHT).position
  let d1 :=
    if float32Sub leftFoot.y rightFoot.y > float32OfInt d.m_level then
      { d with m_key2Pressed := true, m_key1Pressed := false }
    else d
  if float32Sub rightFoot.y leftFoot.y > float32OfInt d1.m_level then
    { d1 with m_key1Pressed := true, m_key2Pressed := false }
  else d1

/-- The first-sample block of `UpdateData` (HandRaisedDetector.cpp:49-53): a zero
`m_previousTimestamp` is replaced by the current timestamp and the time span cleared. -/
def bootstrapTimestamp (d : HandRaisedDetector) (currentTimestamp : Int) :
    HandRaisedDetector :=
  if d.m_previousTimestamp = 0 then
    { d with m_previousTimestamp := currentTimestamp, m_handRaisedTimeSpan := 0 }
  else d

/-- The accumulate / release block of `UpdateData` (HandRaisedDetector.cpp:55-70). -/
def debounce (d : HandRaisedDetector) (raised : Bool) (currentTimestamp : Int) :
    HandRaisedDetector :=
  if !d.m_bothHandsAreRaised && raised then
    let d1 := { d with
      m_handRaisedTimeSpan :=
        wrapInt64 (d.m_handRaisedTimeSpan
          + wrapInt64 (currentTimestamp - d.m_previousTimestamp)) }
    if d1.m_handRaisedTimeSpan > m_stableTime then
      { d1 with m_bothHandsAreRaised := raised }
    else d1
  else if !raised then
    { d with m_bothHandsAreRaised := false, m_previousTimestamp := 0,
             m_handRaisedTimeSpan := 0 }
  else d

/-- The member function `HandRaisedDetector::UpdateData` (HandRaisedDetector.cpp:8-71):
the foot comparisons, then the first-sample block, then the accumulate / release block.
The elbow, shoulder, hip and knee positions are read into locals that are never used. -/
def UpdateData (d : HandRaisedDetector) (selectedBody : k4abt_body_t)
    (currentTimestampUsec : Nat) : HandRaisedDetector :=
  let currentTimestamp := microseconds currentTimestampUsec
  debounce (bootstrapTimestamp (updateKeys d selectedBody) currentTimestamp)
    (bothHandsAreRaised selectedBody) currentTimestamp

/-! ## Sequences of calls -/

/-- A body whose joints all sit at the origin except for the five joints that
`UpdateData` compares, given by their `y` coordinates. -/
def bodyOfY (leftWrist rightWrist head leftFoot rightFoot : ℚ) : k4abt_body_t where
  id := 0
  skeleton :=
    { joints := fun j =>
        match j with
        | .K4ABT_JOINT_WRIST_LEFT => ⟨⟨0, leftWrist, 0⟩⟩
        | .K4ABT_JOINT_WRIST_RIGHT => ⟨⟨0, rightWrist, 0⟩⟩
        | .K4ABT_JOINT_HEAD => ⟨⟨0, head, 0⟩⟩
        | .K4ABT_JOINT_FOOT_LEFT => ⟨⟨0, leftFoot, 0⟩⟩
        | .K4ABT_JOINT_FOOT_RIGHT => ⟨⟨0, rightFoot, 0⟩⟩
        | _ => ⟨⟨0, 0, 0⟩⟩ }

/-- A pose with both wrists above the head (`y` points to the ground) and level feet. -/
def handsUp : k4abt_body_t := bodyOfY (-1) (-1) 0 0 0

/-- A pose with both wrists below the head and level feet. -/
def handsDown : k4abt_body_t := bodyOfY 1 1 0 0 0

/-- One `UpdateData` call per frame, in order. -/
def runFrames (d : HandRaisedDetector) (frames : List (k4abt_body_t × Nat)) :
    HandRaisedDetector :=
  frames.foldl (fun s f => UpdateData s f.1 f.2) d

/-- The frames that show `handsUp` at the given timestamps. -/
def heldAt (timestamps : List Nat) : List (k4abt_body_t × Nat) :=
  timestamps.map (fun t => (handsUp, t))

/-- The call of a client of the class: `UpdateData` or `setLevel`. -/
inductive Call where
  | updateData (selectedBody : k4abt_body_t) (currentTimestampUsec : Nat)
  | changeLevel (newLevel : Int)

/-- The effect of one call on the detector. -/
def Call.apply (d : HandRaisedDetector) : Call → HandRaisedDetector
  | .updateData selectedBody currentTimestampUsec =>
      UpdateData d selectedBody currentTimestampUsec
  | .changeLevel newLevel => setLevel d newLevel

/-- The states a freshly constructed detector reaches by `UpdateData` and `setLevel`
calls. -/
inductive Reachable : HandRaisedDetector → Prop where
  | fresh : Reachable HandRaisedDetector.fresh
  | step (d : HandRaisedDetector) (c : Call) : Reachable d → Reachable (Call.apply d c)

/-- The states a freshly constructed detector reaches by `UpdateData` calls alone. -/
inductive ReachableByUpdates : HandRaisedDetector → Prop where
  | fresh : ReachableByUpdates HandRaisedDetector.fresh
  | step (d : HandRaisedDetector) (selectedBody : k4abt_body_t) (currentTimestampUsec : Nat) :
      ReachableByUpdates d → ReachableByUpdates (UpdateData d selectedBody currentTimestampUsec)

/-- The `y` coordinate of a joint of the body. -/
def jointY (selectedBody : k4abt_body_t) (j : k4abt_joint_id_t) : ℚ :=
  (selectedBody.skeleton.joints j).position.y

/-- A detector in the middle of an active gesture: the flag is set, the time span is
above the stable time, and key 1 is latched. -/
def activeDetector : HandRaisedDetector :=
  { HandRaisedDetector.fresh with
    m_key1Pressed := true
    m_bothHandsAreRaised := true
    m_handRaisedTimeSpan := 3000000
    m_previousTimestamp := 1000 }

/-! ## Facts about the float arithmetic -/

theorem roundHalfEven_bounds (x : ℚ) : ⌊x⌋ ≤ roundHalfEven x ∧ roundHalfEven x ≤ ⌊x⌋ + 1 := by
  unfold roundHalfEven
  split
  · omega
  · split
    · omega
    · split <;> omega

theorem roundHalfEven_intCast (n : ℤ) : roundHalfEven (n : ℚ) = n := by
  unfold roundHalfEven
  simp

theorem roundHalfEven_mono {x y : ℚ} (h : x ≤ y) : roundHalfEven x ≤ roundHalfEven y := by
  have hf : ⌊x⌋ ≤ ⌊y⌋ := Int.floor_le_floor h
  rcases lt_or_eq_of_le hf with hlt | heq
  · have := (roundHalfEven_bounds x).2
    have := (roundHalfEven_bounds y).1
    omega
  · unfold roundHalfEven
    rw [← heq]
    have hxy : x - (⌊x⌋ : ℚ) ≤ y - (⌊x⌋ : ℚ) := by linarith
    by_cases h1 : x - (⌊x⌋ : ℚ) < 1 / 2
    · rw [if_pos h1]
      split
      · omega
      · split
        · omega
        · split <;> omega
    · rw [if_neg h1]
      have h1y : ¬ y - (⌊x⌋ : ℚ) < 1 / 2 := by
        intro hc; exact h1 (lt_of_le_of_lt hxy hc)
      rw [if_neg h1y]
      by_cases h2 : 1 / 2 < x - (⌊x⌋ : ℚ)
      · rw [if_pos h2, if_pos (lt_of_lt_of_le h2 hxy)]
      · rw [if_neg h2]
        split
        · split <;> omega
        · omega

theorem roundHalfEven_nonneg {x : ℚ} (h : 0 ≤ x) : 0 ≤ roundHalfEven x := by
  have := roundHalfEven_mono h
  rwa [show ((0 : ℚ)) = ((0 : ℤ) : ℚ) by simp, roundHalfEven_intCast] at this


theorem two_zpow_split (e : ℤ) (k : ℕ) :
    (2 : ℚ) ^ (e - 23 + (k : ℤ)) = (((2 : ℤ) ^ k : ℤ) : ℚ) * 2 ^ (e - 23) := by
  rw [zpow_add₀ (by norm_num : (2 : ℚ) ≠ 0), zpow_natCast, mul_comm]
  push_cast
  rfl

theorem float32Exponent_ge (a : ℚ) : -126 ≤ float32Exponent a := le_max_right _ _

theorem lt_zpow_float32Exponent (a : ℚ) : a < 2 ^ (float32Exponent a + 1) := by
  have h1 : a < ((2 : ℕ) : ℚ) ^ (Int.log 2 a + 1) := Int.lt_zpow_succ_log_self (by norm_num) a
  have h2 : ((2 : ℕ) : ℚ) ^ (Int.log 2 a + 1) ≤ ((2 : ℕ) : ℚ) ^ (float32Exponent a + 1) :=
    zpow_le_zpow_right₀ (by norm_num) (by unfold float32Exponent; omega)
  exact_mod_cast lt_of_lt_of_le h1 h2

theorem zpow_float32Exponent_le {a : ℚ} (ha : 0 < a) (he : -126 < float32Exponent a) :
    2 ^ float32Exponent a ≤ a := by
  have h1 : ((2 : ℕ) : ℚ) ^ Int.log 2 a ≤ a := Int.zpow_log_le_self (by norm_num) ha
  have h2 : float32Exponent a = Int.log 2 a := by
    unfold float32Exponent at he ⊢
    omega
  rw [h2]
  exact_mod_cast h1

theorem float32Exponent_mono {a b : ℚ} (ha : 0 < a) (h : a ≤ b) :
    float32Exponent a ≤ float32Exponent b :=
  max_le_max (Int.log_mono_right ha h) (le_refl _)

theorem float32Exponent_eq {a : ℚ} (e : ℤ) (ha : 0 < a) (he : -126 ≤ e)
    (hlo : 2 ^ e ≤ a) (hhi : a < 2 ^ (e + 1)) : float32Exponent a = e := by
  have h1 : e ≤ Int.log 2 a :=
    (Int.zpow_le_iff_le_log (by norm_num) ha).1 (by exact_mod_cast hlo)
  have h2 : Int.log 2 a < e + 1 :=
    (Int.lt_zpow_iff_log_lt (by norm_num) ha).1 (by exact_mod_cast hhi)
  unfold float32Exponent
  omega

theorem float32Grid_le {a : ℚ} : float32Grid a ≤ 2 ^ (float32Exponent a + 1) := by
  have hu : (0 : ℚ) < 2 ^ (float32Exponent a - 23) := zpow_pos (by norm_num) _
  have hs := two_zpow_split (float32Exponent a) 24
  rw [show float32Exponent a - 23 + ((24 : ℕ) : ℤ) = float32Exponent a + 1 by push_cast; ring] at hs
  have h1 : a / 2 ^ (float32Exponent a - 23) ≤ (((2 : ℤ) ^ 24 : ℤ) : ℚ) := by
    rw [div_le_iff₀ hu, ← hs]
    exact le_of_lt (lt_zpow_float32Exponent a)
  have h2 := roundHalfEven_mono h1
  rw [roundHalfEven_intCast] at h2
  rw [hs]
  unfold float32Grid
  exact mul_le_mul_of_nonneg_right (by exact_mod_cast h2) (le_of_lt hu)

theorem le_float32Grid {a : ℚ} (ha : 0 < a) (he : -126 < float32Exponent a) :
    2 ^ float32Exponent a ≤ float32Grid a := by
  have hu : (0 : ℚ) < 2 ^ (float32Exponent a - 23) := zpow_pos (by norm_num) _
  have hs := two_zpow_split (float32Exponent a) 23
  rw [show float32Exponent a - 23 + ((23 : ℕ) : ℤ) = float32Exponent a by push_cast; ring] at hs
  have h1 : (((2 : ℤ) ^ 23 : ℤ) : ℚ) ≤ a / 2 ^ (float32Exponent a - 23) := by
    rw [le_div_iff₀ hu, ← hs]
    exact zpow_float32Exponent_le ha he
  have h2 := roundHalfEven_mono h1
  rw [roundHalfEven_intCast] at h2
  rw [hs]
  unfold float32Grid
  exact mul_le_mul_of_nonneg_right (by exact_mod_cast h2) (le_of_lt hu)

theorem float32Grid_mono {a b : ℚ} (ha : 0 < a) (h : a ≤ b) : float32Grid a ≤ float32Grid b := by
  have hb : 0 < b := lt_of_lt_of_le ha h
  have he := float32Exponent_mono ha h
  rcases lt_or_eq_of_le he with hlt | heq
  · have h1 := @float32Grid_le a
    have h2 := le_float32Grid hb (by have := float32Exponent_ge a; omega)
    have h3 : (2 : ℚ) ^ (float32Exponent a + 1) ≤ 2 ^ float32Exponent b :=
      zpow_le_zpow_right₀ (by norm_num) (by omega)
    linarith
  · have hu : (0 : ℚ) < 2 ^ (float32Exponent b - 23) := zpow_pos (by norm_num) _
    unfold float32Grid
    rw [heq]
    have h1 : a / 2 ^ (float32Exponent b - 23) ≤ b / 2 ^ (float32Exponent b - 23) :=
      div_le_div_of_nonneg_right h (le_of_lt hu)
    have h2 := roundHalfEven_mono h1
    exact mul_le_mul_of_nonneg_right (by exact_mod_cast h2) (le_of_lt hu)

theorem float32Grid_nonneg {a : ℚ} (ha : 0 ≤ a) : 0 ≤ float32Grid a := by
  have hu : (0 : ℚ) < 2 ^ (float32Exponent a - 23) := zpow_pos (by norm_num) _
  unfold float32Grid
  have := roundHalfEven_nonneg (div_nonneg ha (le_of_lt hu))
  exact mul_nonneg (by exact_mod_cast this) (le_of_lt hu)

theorem float32Magnitude_eq (a : ℚ) : float32Magnitude a = min (float32Grid a) (2 ^ 128) := rfl

theorem float32Magnitude_nonneg {a : ℚ} (ha : 0 ≤ a) : 0 ≤ float32Magnitude a := by
  rw [float32Magnitude_eq]
  exact le_min (float32Grid_nonneg ha) (by positivity)

theorem float32Magnitude_mono {a b : ℚ} (ha : 0 ≤ a) (h : a ≤ b) :
    float32Magnitude a ≤ float32Magnitude b := by
  rcases lt_or_eq_of_le ha with hpos | hz
  · rw [float32Magnitude_eq, float32Magnitude_eq]
    exact min_le_min (float32Grid_mono hpos h) (le_refl _)
  · subst hz
    have h0 : float32Magnitude 0 = 0 := by
      simp [float32Magnitude, float32Grid, roundHalfEven]
    rw [h0]
    exact float32Magnitude_nonneg h

theorem float32Round_mono {a b : ℚ} (h : a ≤ b) : float32Round a ≤ float32Round b := by
  unfold float32Round
  by_cases ha : 0 ≤ a
  · have hb : 0 ≤ b := le_trans ha h
    rw [if_pos ha, if_pos hb]
    exact float32Magnitude_mono ha h
  · rw [if_neg ha]
    by_cases hb : 0 ≤ b
    · rw [if_pos hb]
      have h1 : 0 ≤ float32Magnitude (-a) := float32Magnitude_nonneg (by linarith)
      have h2 := float32Magnitude_nonneg hb
      linarith
    · rw [if_neg hb]
      have := float32Magnitude_mono (a := -b) (b := -a) (by linarith) (by linarith)
      linarith


theorem float32Magnitude_zero : float32Magnitude 0 = 0 := by
  simp [float32Magnitude, float32Grid, roundHalfEven]

@[simp] theorem float32Round_zero : float32Round 0 = 0 := by
  simp [float32Round, float32Magnitude_zero]

theorem float32Round_neg (a : ℚ) : float32Round (-a) = -float32Round a := by
  unfold float32Round
  rcases lt_trichotomy a 0 with h | h | h
  · rw [if_pos (by linarith : (0 : ℚ) ≤ -a), if_neg (by linarith : ¬ (0 : ℚ) ≤ a), neg_neg]
  · subst h
    simp [float32Magnitude_zero]
  · rw [if_neg (by linarith : ¬ (0 : ℚ) ≤ -a), if_pos (le_of_lt h), neg_neg]

/-- The rounding of a positive rational whose binade is known. -/
theorem float32Round_of_pos {a : ℚ} (e : ℤ) (ha : 0 < a) (he : -126 ≤ e)
    (hlo : 2 ^ e ≤ a) (hhi : a < 2 ^ (e + 1)) :
    float32Round a
      = min ((roundHalfEven (a / 2 ^ (e - 23)) : ℚ) * 2 ^ (e - 23)) (2 ^ 128) := by
  unfold float32Round
  rw [if_pos (le_of_lt ha)]
  unfold float32Magnitude float32Grid
  rw [float32Exponent_eq e ha he hlo hhi]

/-- A positive rational on the grid of its binade is not changed by the rounding. -/
theorem float32Round_of_grid {a : ℚ} (e m : ℤ) (ha : 0 < a) (he : -126 ≤ e) (he2 : e ≤ 127)
    (hlo : 2 ^ e ≤ a) (hhi : a < 2 ^ (e + 1)) (hm : a = (m : ℚ) * 2 ^ (e - 23)) :
    float32Round a = a := by
  have hu : (0 : ℚ) < 2 ^ (e - 23) := zpow_pos (by norm_num) _
  rw [float32Round_of_pos e ha he hlo hhi]
  have h1 : a / 2 ^ (e - 23) = (m : ℚ) := by
    rw [hm]; field_simp
  rw [h1, roundHalfEven_intCast, ← hm]
  have h2 : (2 : ℚ) ^ (e + 1) ≤ 2 ^ (128 : ℤ) := zpow_le_zpow_right₀ (by norm_num) (by omega)
  have h3 : (2 : ℚ) ^ (128 : ℤ) = 2 ^ 128 := by norm_num
  exact min_eq_left (by linarith)

theorem roundHalfEven_eq (x : ℚ) (f : ℤ) (hlo : (f : ℚ) ≤ x) (hhi : x < (f : ℚ) + 1) :
    roundHalfEven x =
      if x - (f : ℚ) < 1 / 2 then f
      else if 1 / 2 < x - (f : ℚ) then f + 1
      else if f % 2 = 0 then f else f + 1 := by
  have hf : ⌊x⌋ = f := Int.floor_eq_iff.2 ⟨hlo, hhi⟩
  unfold roundHalfEven
  rw [hf]

theorem float32Round_one : float32Round 1 = 1 :=
  float32Round_of_grid 0 (2 ^ 23) (by norm_num) (by norm_num) (by norm_num) (by norm_num)
    (by norm_num) (by norm_num)

@[simp] theorem float32Sub_self (a : ℚ) : float32Sub a a = 0 := by
  simp [float32Sub]

@[simp] theorem float32OfInt_zero : float32OfInt 0 = 0 := by
  simp [float32OfInt]

@[simp] theorem float32OfInt_neg_one : float32OfInt (-1) = -1 := by
  simp [float32OfInt, float32Round_neg, float32Round_one]

/-- The `float` subtraction and the conversion of the level keep the order of the exact
values. -/
theorem float32Sub_le_float32OfInt {a b : ℚ} {n : Int} (h : a - b ≤ (n : ℚ)) :
    float32Sub a b ≤ float32OfInt n :=
  float32Round_mono h

/-! ## Basic facts about the blocks of `UpdateData` -/

section blocks

variable (d : HandRaisedDetector) (b : k4abt_body_t) (t : Int) (r : Bool)

@[simp] theorem updateKeys_m_level : (updateKeys d b).m_level = d.m_level := by
  unfold updateKeys; simp only []; split <;> split <;> rfl

@[simp] theorem updateKeys_m_bothHandsAreRaised :
    (updateKeys d b).m_bothHandsAreRaised = d.m_bothHandsAreRaised := by
  unfold updateKeys; simp only []; split <;> split <;> rfl

@[simp] theorem updateKeys_m_handRaisedTimeSpan :
    (updateKeys d b).m_handRaisedTimeSpan = d.m_handRaisedTimeSpan := by
  unfold updateKeys; simp only []; split <;> split <;> rfl

@[simp] theorem updateKeys_m_previousTimestamp :
    (updateKeys d b).m_previousTimestamp = d.m_previousTimestamp := by
  unfold updateKeys; simp only []; split <;> split <;> rfl

@[simp] theorem bootstrapTimestamp_m_key1Pressed :
    (bootstrapTimestamp d t).m_key1Pressed = d.m_key1Pressed := by
  unfold bootstrapTimestamp; split <;> rfl

@[simp] theorem bootstrapTimestamp_m_key2Pressed :
    (bootstrapTimestamp d t).m_key2Pressed = d.m_key2Pressed := by
  unfold bootstrapTimestamp; split <;> rfl

@[simp] theorem bootstrapTimestamp_m_bothHandsAreRaised :
    (bootstrapTimestamp d t).m_bothHandsAreRaised = d.m_bothHandsAreRaised := by
  unfold bootstrapTimestamp; split <;> rfl

@[simp] theorem debounce_m_key1Pressed :
    (debounce d r t).m_key1Pressed = d.m_key1Pressed := by
  unfold debounce; simp only []; split
  · split <;> rfl
  · split <;> rfl

@[simp] theorem debounce_m_key2Pressed :
    (debounce d r t).m_key2Pressed = d.m_key2Pressed := by
  unfold debounce; simp only []; split
  · split <;> rfl
  · split <;> rfl

/-- With the raw condition false the release branch runs, whatever the state. -/
theorem debounce_released :
    debounce d false t =
      { d with m_bothHandsAreRaised := false, m_previousTimestamp := 0,
               m_handRaisedTimeSpan := 0 } := by
  simp [debounce]

/-- With the gesture active and the raw condition true, no branch runs. -/
theorem debounce_active (h : d.m_bothHandsAreRaised = true) : debounce d true t = d := by
  simp [debounce, h]

end blocks

/-- The raw condition, written with the joint coordinates. -/
theorem bothHandsAreRaised_iff (b : k4abt_body_t) :
    bothHandsAreRaised b = true ↔
      jointY b .K4ABT_JOINT_WRIST_LEFT < jointY b .K4ABT_JOINT_HEAD ∧
      jointY b .K4ABT_JOINT_WRIST_RIGHT < jointY b .K4ABT_JOINT_HEAD := by
  simp [bothHandsAreRaised, jointY]

/-- The raw condition is false as soon as one wrist is level with or below the head. -/
theorem bothHandsAreRaised_eq_false (b : k4abt_body_t)
    (h : jointY b .K4ABT_JOINT_WRIST_LEFT ≥ jointY b .K4ABT_JOINT_HEAD ∨
         jointY b .K4ABT_JOINT_WRIST_RIGHT ≥ jointY b .K4ABT_JOINT_HEAD) :
    bothHandsAreRaised b = false := by
  cases hb : bothHandsAreRaised b with
  | false => rfl
  | true =>
    have h2 := (bothHandsAreRaised_iff b).1 hb
    rcases h with h | h
    · exact absurd h2.1 (not_lt.2 h)
    · exact absurd h2.2 (not_lt.2 h)

/-! ## Single calls -/

/-- C3 (instant release): from every detector state, with every timestamp, a call whose
pose has a wrist level with or below the head (`leftWrist.y >= head.y` or
`rightWrist.y >= head.y`) ends with `AreBothHandsRaised()` false. -/
theorem instant_release (d : HandRaisedDetector) (selectedBody : k4abt_body_t)
    (currentTimestampUsec : Nat)
    (hraw : jointY selectedBody .K4ABT_JOINT_WRIST_LEFT ≥ jointY selectedBody .K4ABT_JOINT_HEAD ∨
      jointY selectedBody .K4ABT_JOINT_WRIST_RIGHT ≥ jointY selectedBody .K4ABT_JOINT_HEAD) :
    AreBothHandsRaised (UpdateData d selectedBody currentTimestampUsec) = false := by
  simp [AreBothHandsRaised, UpdateData, bothHandsAreRaised_eq_false selectedBody hraw,
    debounce_released]

/-- The release of an active gesture by a pose whose left wrist is exactly level with the
head. -/
theorem instant_release_witness :
    AreBothHandsRaised activeDetector = true ∧
    jointY (bodyOfY 0 (-1) 0 0 0) .K4ABT_JOINT_WRIST_LEFT
      ≥ jointY (bodyOfY 0 (-1) 0 0 0) .K4ABT_JOINT_HEAD ∧
    AreBothHandsRaised (UpdateData activeDetector (bodyOfY 0 (-1) 0 0 0) 2500000) = false :=
  ⟨rfl, by simp [jointY, bodyOfY],
    instant_release activeDetector (bodyOfY 0 (-1) 0 0 0) 2500000
      (Or.inl (by simp [jointY, bodyOfY]))⟩

/-- C6 (accumulator reset on release): from every detector state, with every timestamp, a
call whose raw condition is false ends with `m_handRaisedTimeSpan` zero and
`m_previousTimestamp` zero (unset); the first-sample block of the next call then stores
that call's timestamp with a zero time span, and the timestamp is still stored when that
call returns if its raw condition is true. -/
theorem release_resets_accumulator (d : HandRaisedDetector) (selectedBody : k4abt_body_t)
    (currentTimestampUsec : Nat)
    (hraw : jointY selectedBody .K4ABT_JOINT_WRIST_LEFT ≥ jointY selectedBody .K4ABT_JOINT_HEAD ∨
      jointY selectedBody .K4ABT_JOINT_WRIST_RIGHT ≥ jointY selectedBody .K4ABT_JOINT_HEAD) :
    (UpdateData d selectedBody currentTimestampUsec).m_handRaisedTimeSpan = 0 ∧
    (UpdateData d selectedBody currentTimestampUsec).m_previousTimestamp = 0 ∧
    ∀ (nextBody : k4abt_body_t) (nextTimestampUsec : Nat),
      (bootstrapTimestamp
          (updateKeys (UpdateData d selectedBody currentTimestampUsec) nextBody)
          (microseconds nextTimestampUsec)).m_previousTimestamp
        = microseconds nextTimestampUsec ∧
      (bootstrapTimestamp
          (updateKeys (UpdateData d selectedBody currentTimestampUsec) nextBody)
          (microseconds nextTimestampUsec)).m_handRaisedTimeSpan = 0 ∧
      (bothHandsAreRaised nextBody = true →
        (UpdateData (UpdateData d selectedBody currentTimestampUsec) nextBody
            nextTimestampUsec).m_previousTimestamp = microseconds nextTimestampUsec) := by
  have hf := bothHandsAreRaised_eq_false selectedBody hraw
  have hs : (UpdateData d selectedBody currentTimestampUsec).m_handRaisedTimeSpan = 0 := by
    simp [UpdateData, hf, debounce_released]
  have hp : (UpdateData d selectedBody currentTimestampUsec).m_previousTimestamp = 0 := by
    simp [UpdateData, hf, debounce_released]
  have ha : (UpdateData d selectedBody currentTimestampUsec).m_bothHandsAreRaised = false := by
    simp [UpdateData, hf, debounce_released]
  refine ⟨hs, hp, fun nextBody nextTimestampUsec => ⟨?_, ?_, ?_⟩⟩
  · simp [bootstrapTimestamp, hp]
  · simp [bootstrapTimestamp, hp]
  · intro hn
    generalize UpdateData d selectedBody currentTimestampUsec = e at hs hp ha
    simp only [UpdateData, hn, debounce, bootstrapTimestamp, updateKeys_m_previousTimestamp, hp,
      updateKeys_m_bothHandsAreRaised, ha]
    simp only [if_true, Bool.not_false, Bool.and_self]
    split <;> rfl

/-- The release of an active gesture clears the time span and the previous timestamp. -/
theorem release_resets_accumulator_witness :
    activeDetector.m_handRaisedTimeSpan = 3000000 ∧
    (UpdateData activeDetector handsDown 2500000).m_handRaisedTimeSpan = 0 ∧
    (UpdateData activeDetector handsDown 2500000).m_previousTimestamp = 0 :=
  ⟨rfl,
    (release_resets_accumulator activeDetector handsDown 2500000
      (Or.inl (by simp [jointY, handsDown, bodyOfY]))).1,
    (release_resets_accumulator activeDetector handsDown 2500000
      (Or.inl (by simp [jointY, handsDown, bodyOfY]))).2.1⟩

/-! ## The direction latches -/

/-- The key flags after `UpdateData` are those computed by the two foot comparisons. -/
theorem UpdateData_keys (d : HandRaisedDetector) (selectedBody : k4abt_body_t)
    (currentTimestampUsec : Nat) :
    Key1Pressed (UpdateData d selectedBody currentTimestampUsec)
        = (updateKeys d selectedBody).m_key1Pressed ∧
    Key2Pressed (UpdateData d selectedBody currentTimestampUsec)
        = (updateKeys d selectedBody).m_key2Pressed := by
  simp [Key1Pressed, Key2Pressed, UpdateData]

/-- The key flags after the two foot comparisons: the second comparison, when it holds,
decides; else the first, when it holds; else the flags stay. -/
theorem updateKeys_keys (d : HandRaisedDetector) (selectedBody : k4abt_body_t) :
    (updateKeys d selectedBody).m_key1Pressed =
      (if float32Sub (jointY selectedBody .K4ABT_JOINT_FOOT_RIGHT)
          (jointY selectedBody .K4ABT_JOINT_FOOT_LEFT) > float32OfInt d.m_level then true
        else if float32Sub (jointY selectedBody .K4ABT_JOINT_FOOT_LEFT)
          (jointY selectedBody .K4ABT_JOINT_FOOT_RIGHT) > float32OfInt d.m_level then false
        else d.m_key1Pressed) ∧
    (updateKeys d selectedBody).m_key2Pressed =
      (if float32Sub (jointY selectedBody .K4ABT_JOINT_FOOT_RIGHT)
          (jointY selectedBody .K4ABT_JOINT_FOOT_LEFT) > float32OfInt d.m_level then false
        else if float32Sub (jointY selectedBody .K4ABT_JOINT_FOOT_LEFT)
          (jointY selectedBody .K4ABT_JOINT_FOOT_RIGHT) > float32OfInt d.m_level then true
        else d.m_key2Pressed) := by
  unfold updateKeys jointY
  simp only []
  by_cases c1 : float32Sub (selectedBody.skeleton.joints .K4ABT_JOINT_FOOT_LEFT).position.y
      (selectedBody.skeleton.joints .K4ABT_JOINT_FOOT_RIGHT).position.y
      > float32OfInt d.m_level <;>
  by_cases c2 : float32Sub (selectedBody.skeleton.joints .K4ABT_JOINT_FOOT_RIGHT).position.y
      (selectedBody.skeleton.joints .K4ABT_JOINT_FOOT_LEFT).position.y
      > float32OfInt d.m_level <;>
  simp [c1, c2]

/-- The foot comparisons never leave both key flags set. -/
theorem updateKeys_exclusive (d : HandRaisedDetector) (selectedBody : k4abt_body_t)
    (h : ¬ (d.m_key1Pressed = true ∧ d.m_key2Pressed = true)) :
    ¬ ((updateKeys d selectedBody).m_key1Pressed = true ∧
       (updateKeys d selectedBody).m_key2Pressed = true) := by
  unfold updateKeys
  simp only []
  split <;> split <;> simp_all

theorem jointY_bodyOfY_foot (leftWrist rightWrist head leftFoot rightFoot : ℚ) :
    jointY (bodyOfY leftWrist rightWrist head leftFoot rightFoot) .K4ABT_JOINT_FOOT_LEFT
      = leftFoot ∧
    jointY (bodyOfY leftWrist rightWrist head leftFoot rightFoot) .K4ABT_JOINT_FOOT_RIGHT
      = rightFoot :=
  ⟨rfl, rfl⟩

/-- C8, on explicit inputs.  With `m_level = -1` and level feet the difference
`leftFoot.y - rightFoot.y = 0` exceeds the threshold, yet after the call key 1 is pressed
and key 2 is not, because the second comparison also holds and runs last.  And with
`m_level = 1`, `leftFoot.y = 1` and `rightFoot.y = -2^-25` the exact difference
`1 + 2^-25` exceeds the threshold and the reverse difference does not, yet key 2 is not
pressed after the call: the `float` difference is rounded to 1, which does not exceed
the threshold. -/
theorem secondary_latch_counterexample :
    (jointY handsUp .K4ABT_JOINT_FOOT_LEFT - jointY handsUp .K4ABT_JOINT_FOOT_RIGHT
        > (((-1 : Int)) : ℚ) ∧
      Key2Pressed (UpdateData (setLevel HandRaisedDetector.fresh (-1)) handsUp 1000) = false ∧
      Key1Pressed (UpdateData (setLevel HandRaisedDetector.fresh (-1)) handsUp 1000) = true) ∧
    (jointY (bodyOfY 0 0 0 1 (-(1 / 2 ^ 25))) .K4ABT_JOINT_FOOT_LEFT
        - jointY (bodyOfY 0 0 0 1 (-(1 / 2 ^ 25))) .K4ABT_JOINT_FOOT_RIGHT
        > (((1 : Int)) : ℚ) ∧
      jointY (bodyOfY 0 0 0 1 (-(1 / 2 ^ 25))) .K4ABT_JOINT_FOOT_RIGHT
        - jointY (bodyOfY 0 0 0 1 (-(1 / 2 ^ 25))) .K4ABT_JOINT_FOOT_LEFT
        ≤ (((1 : Int)) : ℚ) ∧
      float32Sub 1 (-(1 / 2 ^ 25)) = 1 ∧
      Key2Pressed (UpdateData (setLevel HandRaisedDetector.fresh 1)
        (bodyOfY 0 0 0 1 (-(1 / 2 ^ 25))) 1000) = false) := by
  have hsub : float32Sub 1 (-(1 / 2 ^ 25)) = 1 := by
    unfold float32Sub
    rw [float32Round_of_pos 0 (by norm_num) (by norm_num) (by norm_num) (by norm_num),
      roundHalfEven_eq _ 8388608 (by norm_num) (by norm_num)]
    norm_num
  have hlevel : float32OfInt 1 = 1 := by
    simp [float32OfInt, float32Round_one]
  have hrev : float32Sub (-(1 / 2 ^ 25)) 1 ≤ float32OfInt 1 :=
    float32Sub_le_float32OfInt (by norm_num)
  refine ⟨⟨?_, ?_, ?_⟩, ?_, ?_, hsub, ?_⟩
  · simp [jointY, handsUp, bodyOfY]
  · simp [(UpdateData_keys _ _ _).2, updateKeys, setLevel, handsUp, bodyOfY]
  · simp [(UpdateData_keys _ _ _).1, updateKeys, setLevel, handsUp, bodyOfY]
  · norm_num [jointY, bodyOfY]
  · norm_num [jointY, bodyOfY]
  · rw [(UpdateData_keys _ _ _).2, (updateKeys_keys _ _).2,
      (jointY_bodyOfY_foot _ _ _ _ _).1, (jointY_bodyOfY_foot _ _ _ _ _).2]
    have hl : (setLevel HandRaisedDetector.fresh 1).m_level = 1 := rfl
    rw [hl, if_neg (not_lt.2 hrev), hsub, hlevel, if_neg (lt_irrefl _)]
    rfl

/-- C8 as amended (secondary direction latch): for every detector state, every level set
with `setLevel` and every pose for which the comparison `leftFoot.y - rightFoot.y > level`
of the code holds, with the difference rounded to `float` and the level converted to
`float`, and the comparison `rightFoot.y - leftFoot.y > level` of the code does not hold,
after `UpdateData` key 2 is pressed and key 1 is not. -/
theorem secondary_latch (d : HandRaisedDetector) (level : Int) (selectedBody : k4abt_body_t)
    (currentTimestampUsec : Nat)
    (hgt : float32Sub (jointY selectedBody .K4ABT_JOINT_FOOT_LEFT)
      (jointY selectedBody .K4ABT_JOINT_FOOT_RIGHT) > float32OfInt level)
    (hle : float32Sub (jointY selectedBody .K4ABT_JOINT_FOOT_RIGHT)
      (jointY selectedBody .K4ABT_JOINT_FOOT_LEFT) ≤ float32OfInt level) :
    Key2Pressed (UpdateData (setLevel d level) selectedBody currentTimestampUsec) = true ∧
    Key1Pressed (UpdateData (setLevel d level) selectedBody currentTimestampUsec) = false := by
  have hl : (setLevel d level).m_level = level := rfl
  rw [(UpdateData_keys _ _ _).1, (UpdateData_keys _ _ _).2, (updateKeys_keys _ _).1,
    (updateKeys_keys _ _).2, hl, if_neg (not_lt.2 hle), if_neg (not_lt.2 hle), if_pos hgt,
    if_pos hgt]
  exact ⟨rfl, rfl⟩

/-- The left foot 6 below the right foot with threshold 5, starting with key 1 latched. -/
theorem secondary_latch_witness :
    Key1Pressed activeDetector = true ∧
    Key2Pressed (UpdateData (setLevel activeDetector 5) (bodyOfY 0 0 0 6 0) 1000) = true ∧
    Key1Pressed (UpdateData (setLevel activeDetector 5) (bodyOfY 0 0 0 6 0) 1000) = false :=
  ⟨rfl, secondary_latch activeDetector 5 (bodyOfY 0 0 0 6 0) 1000
    (by
      have h6 : float32Round 6 = 6 :=
        float32Round_of_grid 2 (6 * 2 ^ 21) (by norm_num) (by norm_num) (by norm_num)
          (by norm_num) (by norm_num) (by norm_num)
      have h5 : float32Round 5 = 5 :=
        float32Round_of_grid 2 (5 * 2 ^ 21) (by norm_num) (by norm_num) (by norm_num)
          (by norm_num) (by norm_num) (by norm_num)
      rw [(jointY_bodyOfY_foot _ _ _ _ _).1, (jointY_bodyOfY_foot _ _ _ _ _).2]
      norm_num [float32Sub, float32OfInt, h6, h5])
    (float32Sub_le_float32OfInt (by norm_num [jointY, bodyOfY]))⟩

/-- C9, on explicit inputs.  With `m_level = 100`, `rightFoot.y = 60 + 2^-18` and
`leftFoot.y = -40` the exact difference `100 + 2^-18` exceeds the threshold, but the
`float` difference is rounded to 100 and key 1 is not pressed after the call.  With
`m_level = 16777219`, `rightFoot.y = 16777220` and `leftFoot.y = 0` the difference exceeds
the threshold, but the threshold is converted to the `float` 16777220 and key 1 is not
pressed after the call. -/
theorem primary_latch_counterexample :
    (jointY (bodyOfY 0 0 0 (-40) (60 + 1 / 2 ^ 18)) .K4ABT_JOINT_FOOT_RIGHT
        - jointY (bodyOfY 0 0 0 (-40) (60 + 1 / 2 ^ 18)) .K4ABT_JOINT_FOOT_LEFT
        > (((100 : Int)) : ℚ) ∧
      float32Sub (60 + 1 / 2 ^ 18) (-40) = 100 ∧
      Key1Pressed (UpdateData (setLevel HandRaisedDetector.fresh 100)
        (bodyOfY 0 0 0 (-40) (60 + 1 / 2 ^ 18)) 1000) = false) ∧
    (jointY (bodyOfY 0 0 0 0 16777220) .K4ABT_JOINT_FOOT_RIGHT
        - jointY (bodyOfY 0 0 0 0 16777220) .K4ABT_JOINT_FOOT_LEFT
        > (((16777219 : Int)) : ℚ) ∧
      float32OfInt 16777219 = 16777220 ∧
      Key1Pressed (UpdateData (setLevel HandRaisedDetector.fresh 16777219)
        (bodyOfY 0 0 0 0 16777220) 1000) = false) := by
  have hsub : float32Sub (60 + 1 / 2 ^ 18) (-40) = 100 := by
    unfold float32Sub
    rw [float32Round_of_pos 6 (by norm_num) (by norm_num) (by norm_num) (by norm_num),
      roundHalfEven_eq _ 13107200 (by norm_num) (by norm_num)]
    norm_num
  have h100 : float32OfInt 100 = 100 := by
    unfold float32OfInt
    exact float32Round_of_grid 6 (100 * 2 ^ 17) (by norm_num) (by norm_num) (by norm_num)
      (by norm_num) (by norm_num) (by norm_num)
  have hrev : float32Sub (-40) (60 + 1 / 2 ^ 18) ≤ float32OfInt 100 :=
    float32Sub_le_float32OfInt (by norm_num)
  have hbig : float32OfInt 16777219 = 16777220 := by
    unfold float32OfInt
    rw [float32Round_of_pos 24 (by norm_num) (by norm_num) (by norm_num) (by norm_num),
      roundHalfEven_eq _ 8388609 (by norm_num) (by norm_num)]
    norm_num
  have hsub2 : float32Sub 16777220 0 = 16777220 := by
    unfold float32Sub
    rw [sub_zero]
    exact float32Round_of_grid 24 8388610 (by norm_num) (by norm_num) (by norm_num)
      (by norm_num) (by norm_num) (by norm_num)
  have hrev2 : float32Sub 0 16777220 ≤ float32OfInt 16777219 :=
    float32Sub_le_float32OfInt (by norm_num)
  refine ⟨⟨?_, hsub, ?_⟩, ?_, hbig, ?_⟩
  · norm_num [jointY, bodyOfY]
  · have hl : (setLevel HandRaisedDetector.fresh 100).m_level = 100 := rfl
    rw [(UpdateData_keys _ _ _).1, (updateKeys_keys _ _).1,
      (jointY_bodyOfY_foot _ _ _ _ _).1, (jointY_bodyOfY_foot _ _ _ _ _).2, hl, hsub, h100,
      if_neg (lt_irrefl _), ← h100, if_neg (not_lt.2 hrev)]
    rfl
  · norm_num [jointY, bodyOfY]
  · have hl : (setLevel HandRaisedDetector.fresh 16777219).m_level = 16777219 := rfl
    rw [(UpdateData_keys _ _ _).1, (updateKeys_keys _ _).1,
      (jointY_bodyOfY_foot _ _ _ _ _).1, (jointY_bodyOfY_foot _ _ _ _ _).2, hl, hsub2,
      if_neg (not_lt.2 hrev2), hbig, if_neg (lt_irrefl _)]
    rfl

/-- C9 as amended (primary direction latch): for every detector state, every level set
with `setLevel` and every pose for which the comparison `rightFoot.y - leftFoot.y > level`
of the code holds, with the difference rounded to `float` and the level converted to
`float`, after `UpdateData` key 1 is pressed and key 2 is not. -/
theorem primary_latch (d : HandRaisedDetector) (level : Int) (selectedBody : k4abt_body_t)
    (currentTimestampUsec : Nat)
    (hgt : float32Sub (jointY selectedBody .K4ABT_JOINT_FOOT_RIGHT)
      (jointY selectedBody .K4ABT_JOINT_FOOT_LEFT) > float32OfInt level) :
    Key1Pressed (UpdateData (setLevel d level) selectedBody currentTimestampUsec) = true ∧
    Key2Pressed (UpdateData (setLevel d level) selectedBody currentTimestampUsec) = false := by
  have hl : (setLevel d level).m_level = level := rfl
  rw [(UpdateData_keys _ _ _).1, (UpdateData_keys _ _ _).2, (updateKeys_keys _ _).1,
    (updateKeys_keys _ _).2, hl, if_pos hgt, if_pos hgt]
  exact ⟨rfl, rfl⟩

/-- With threshold -1 and level feet both comparisons hold; key 1 wins. -/
theorem primary_latch_witness :
    Key1Pressed (UpdateData (setLevel HandRaisedDetector.fresh (-1)) handsUp 1000) = true ∧
    Key2Pressed (UpdateData (setLevel HandRaisedDetector.fresh (-1)) handsUp 1000) = false :=
  primary_latch HandRaisedDetector.fresh (-1) handsUp 1000
    (by simp [jointY, handsUp, bodyOfY])

/-- C10 (latch retention): for every detector state and every pose with
`leftFoot.y - rightFoot.y <= m_level` and `rightFoot.y - leftFoot.y <= m_level`,
`UpdateData` leaves `Key1Pressed()` and `Key2Pressed()` as they were, whatever the wrist
and head positions and the timestamp.  The rounding of the `float` difference and of the
converted level keeps the order, so neither comparison of the code holds. -/
theorem latch_retention (d : HandRaisedDetector) (selectedBody : k4abt_body_t)
    (currentTimestampUsec : Nat)
    (hle1 : jointY selectedBody .K4ABT_JOINT_FOOT_LEFT
      - jointY selectedBody .K4ABT_JOINT_FOOT_RIGHT ≤ (d.m_level : ℚ))
    (hle2 : jointY selectedBody .K4ABT_JOINT_FOOT_RIGHT
      - jointY selectedBody .K4ABT_JOINT_FOOT_LEFT ≤ (d.m_level : ℚ)) :
    Key1Pressed (UpdateData d selectedBody currentTimestampUsec) = Key1Pressed d ∧
    Key2Pressed (UpdateData d selectedBody currentTimestampUsec) = Key2Pressed d := by
  have h1 := float32Sub_le_float32OfInt hle1
  have h2 := float32Sub_le_float32OfInt hle2
  rw [(UpdateData_keys _ _ _).1, (UpdateData_keys _ _ _).2, (updateKeys_keys _ _).1,
    (updateKeys_keys _ _).2, if_neg (not_lt.2 h2), if_neg (not_lt.2 h2),
    if_neg (not_lt.2 h1), if_neg (not_lt.2 h1)]
  exact ⟨rfl, rfl⟩

/-- A latched key 1 survives a frame with level feet. -/
theorem latch_retention_witness :
    Key1Pressed activeDetector = true ∧
    Key1Pressed (UpdateData activeDetector handsDown 1000) = Key1Pressed activeDetector ∧
    Key2Pressed (UpdateData activeDetector handsDown 1000) = Key2Pressed activeDetector :=
  ⟨rfl, latch_retention activeDetector handsDown 1000
    (by simp [jointY, handsDown, bodyOfY, activeDetector, HandRaisedDetector.fresh])
    (by simp [jointY, handsDown, bodyOfY, activeDetector, HandRaisedDetector.fresh])⟩

/-! ## Invariants of the reachable states -/

@[simp] theorem wrapInt64_zero : wrapInt64 0 = 0 := by decide

/-- What holds of every state a fresh detector can reach: an active gesture has a set
previous timestamp and a time span above the stable time, and the two key flags are not
both set. -/
def Invariant (d : HandRaisedDetector) : Prop :=
  (d.m_bothHandsAreRaised = true →
    d.m_previousTimestamp ≠ 0 ∧ d.m_handRaisedTimeSpan > m_stableTime) ∧
  ¬ (d.m_key1Pressed = true ∧ d.m_key2Pressed = true)

theorem Invariant_fresh : Invariant HandRaisedDetector.fresh := by
  simp [Invariant, HandRaisedDetector.fresh]

/-- The accumulate / release block after the first-sample block keeps the first part of
the invariant. -/
theorem debounce_bootstrap_active (d : HandRaisedDetector) (r : Bool) (t : Int)
    (h : d.m_bothHandsAreRaised = true →
      d.m_previousTimestamp ≠ 0 ∧ d.m_handRaisedTimeSpan > m_stableTime)
    (ha : (debounce (bootstrapTimestamp d t) r t).m_bothHandsAreRaised = true) :
    (debounce (bootstrapTimestamp d t) r t).m_previousTimestamp ≠ 0 ∧
    (debounce (bootstrapTimestamp d t) r t).m_handRaisedTimeSpan > m_stableTime := by
  cases r with
  | false => simp [debounce_released] at ha
  | true =>
    cases hd : d.m_bothHandsAreRaised with
    | true =>
      have h0 := h hd
      have hb : bootstrapTimestamp d t = d := by simp [bootstrapTimestamp, h0.1]
      rw [hb, debounce_active d t hd]
      exact h0
    | false =>
      by_cases hp : d.m_previousTimestamp = 0
      · have hb : bootstrapTimestamp d t =
            { d with m_previousTimestamp := t, m_handRaisedTimeSpan := 0 } := by
          simp [bootstrapTimestamp, hp]
        rw [hb] at ha
        simp [debounce, hd, m_stableTime] at ha
      · have hb : bootstrapTimestamp d t = d := by simp [bootstrapTimestamp, hp]
        rw [hb] at ha ⊢
        unfold debounce at ha ⊢
        simp only [hd, Bool.not_false, Bool.and_self, if_true] at ha ⊢
        split
        · rename_i hgt
          exact ⟨hp, hgt⟩
        · rename_i hgt
          rw [if_neg hgt] at ha
          simp [hd] at ha

theorem Invariant_UpdateData (d : HandRaisedDetector) (selectedBody : k4abt_body_t)
    (currentTimestampUsec : Nat) (h : Invariant d) :
    Invariant (UpdateData d selectedBody currentTimestampUsec) := by
  refine ⟨fun ha => ?_, ?_⟩
  · exact debounce_bootstrap_active (updateKeys d selectedBody) _ _ (by simpa using h.1) ha
  · have := updateKeys_exclusive d selectedBody h.2
    simpa [UpdateData] using this

theorem Invariant_setLevel (d : HandRaisedDetector) (level : Int) (h : Invariant d) :
    Invariant (setLevel d level) := h

theorem Reachable.invariant {d : HandRaisedDetector} (h : Reachable d) : Invariant d := by
  induction h with
  | fresh => exact Invariant_fresh
  | step d c _ ih =>
    cases c with
    | updateData selectedBody currentTimestampUsec =>
      exact Invariant_UpdateData d selectedBody currentTimestampUsec ih
    | changeLevel newLevel => exact Invariant_setLevel d newLevel ih

theorem ReachableByUpdates.reachable {d : HandRaisedDetector} (h : ReachableByUpdates d) :
    Reachable d := by
  induction h with
  | fresh => exact Reachable.fresh
  | step d selectedBody currentTimestampUsec _ ih =>
    exact Reachable.step d (.updateData selectedBody currentTimestampUsec) ih

/-- A detector that saw raised hands at 1000 and at 2001001 microseconds. -/
def heldDetector : HandRaisedDetector :=
  UpdateData (UpdateData HandRaisedDetector.fresh handsUp 1000) handsUp 2001001

theorem heldDetector_reachable : ReachableByUpdates heldDetector :=
  ReachableByUpdates.step _ handsUp 2001001
    (ReachableByUpdates.step _ handsUp 1000 ReachableByUpdates.fresh)

theorem heldDetector_active : heldDetector.m_bothHandsAreRaised = true := by
  simp [heldDetector, UpdateData, debounce, bootstrapTimestamp, updateKeys,
    bothHandsAreRaised, handsUp, bodyOfY, microseconds, wrapInt64, m_stableTime,
    HandRaisedDetector.fresh]

/-- C4 (frozen state while active): in every state reachable from a fresh detector by
`UpdateData` and `setLevel` calls in which `m_bothHandsAreRaised` is true, an `UpdateData`
call with both wrists above the head and any timestamp leaves `m_handRaisedTimeSpan`,
`m_previousTimestamp` and `m_bothHandsAreRaised` unchanged. -/
theorem frozen_while_active (d : HandRaisedDetector) (hr : Reachable d)
    (ha : d.m_bothHandsAreRaised = true) (selectedBody : k4abt_body_t)
    (currentTimestampUsec : Nat)
    (hraw : jointY selectedBody .K4ABT_JOINT_WRIST_LEFT < jointY selectedBody .K4ABT_JOINT_HEAD ∧
      jointY selectedBody .K4ABT_JOINT_WRIST_RIGHT < jointY selectedBody .K4ABT_JOINT_HEAD) :
    (UpdateData d selectedBody currentTimestampUsec).m_handRaisedTimeSpan
      = d.m_handRaisedTimeSpan ∧
    (UpdateData d selectedBody currentTimestampUsec).m_previousTimestamp
      = d.m_previousTimestamp ∧
    (UpdateData d selectedBody currentTimestampUsec).m_bothHandsAreRaised
      = d.m_bothHandsAreRaised := by
  have hp : d.m_previousTimestamp ≠ 0 := (hr.invariant.1 ha).1
  have hb : bootstrapTimestamp (updateKeys d selectedBody)
      (microseconds currentTimestampUsec) = updateKeys d selectedBody := by
    simp [bootstrapTimestamp, hp]
  have hu : UpdateData d selectedBody currentTimestampUsec = updateKeys d selectedBody := by
    simp only [UpdateData, hb, (bothHandsAreRaised_iff selectedBody).2 hraw]
    exact debounce_active _ _ (by simpa using ha)
  simp [hu]

/-- An active detector that is shown raised hands again, with an earlier timestamp. -/
theorem frozen_while_active_witness :
    (UpdateData heldDetector handsUp 5).m_handRaisedTimeSpan
      = heldDetector.m_handRaisedTimeSpan ∧
    (UpdateData heldDetector handsUp 5).m_previousTimestamp
      = heldDetector.m_previousTimestamp ∧
    (UpdateData heldDetector handsUp 5).m_bothHandsAreRaised
      = heldDetector.m_bothHandsAreRaised :=
  frozen_while_active heldDetector heldDetector_reachable.reachable heldDetector_active
    handsUp 5 (by norm_num [jointY, handsUp, bodyOfY])

/-- C5 (mutual exclusion of the direction latches): in every state reachable from a fresh
detector by `UpdateData` calls (any pose, any timestamp) and `setLevel` calls (any
integer), `Key1Pressed()` and `Key2Pressed()` are not both true. -/
theorem keys_mutually_exclusive (d : HandRaisedDetector) (hr : Reachable d) :
    ¬ (Key1Pressed d = true ∧ Key2Pressed d = true) :=
  hr.invariant.2

/-- The state after `setLevel(-1)` and a frame with level feet, where both foot
comparisons hold. -/
theorem keys_mutually_exclusive_witness :
    ¬ (Key1Pressed (UpdateData (setLevel HandRaisedDetector.fresh (-1)) handsUp 1000) = true ∧
       Key2Pressed (UpdateData (setLevel HandRaisedDetector.fresh (-1)) handsUp 1000) = true) :=
  keys_mutually_exclusive _
    (Reachable.step _ (.updateData handsUp 1000)
      (Reachable.step _ (.changeLevel (-1)) Reachable.fresh))

/-- C7 (activation implies threshold exceeded): in every state reachable from a fresh
detector by `UpdateData` calls, an active gesture has `m_handRaisedTimeSpan` above
2 000 000 microseconds; and an `UpdateData` call that turns `AreBothHandsRaised()` from
false to true has the raw condition true and ends with the time span above 2 000 000. -/
theorem active_implies_threshold (d : HandRaisedDetector) (hr : ReachableByUpdates d) :
    (AreBothHandsRaised d = true → d.m_handRaisedTimeSpan > 2000000) ∧
    ∀ (selectedBody : k4abt_body_t) (currentTimestampUsec : Nat),
      AreBothHandsRaised d = false →
      AreBothHandsRaised (UpdateData d selectedBody currentTimestampUsec) = true →
      bothHandsAreRaised selectedBody = true ∧
      (UpdateData d selectedBody currentTimestampUsec).m_handRaisedTimeSpan > 2000000 := by
  refine ⟨fun ha => ?_, fun selectedBody currentTimestampUsec _ ha => ⟨?_, ?_⟩⟩
  · have := (hr.reachable.invariant.1 ha).2
    simpa [m_stableTime] using this
  · cases hb : bothHandsAreRaised selectedBody with
    | true => rfl
    | false => simp [AreBothHandsRaised, UpdateData, hb, debounce_released] at ha
  · have := ((ReachableByUpdates.step d selectedBody currentTimestampUsec
      hr).reachable.invariant.1 ha).2
    simpa [m_stableTime] using this

/-- The detector that saw raised hands at 1000 and 2001001 microseconds is active, with a
time span above the stable time. -/
theorem active_implies_threshold_witness :
    AreBothHandsRaised heldDetector = true ∧ heldDetector.m_handRaisedTimeSpan > 2000000 :=
  ⟨heldDetector_active,
    (active_implies_threshold heldDetector heldDetector_reachable).1 heldDetector_active⟩

/-! ## Holding the hands up -/

theorem wrapInt64_of_mem (v : Int) (hlo : -2 ^ 63 ≤ v) (hhi : v < 2 ^ 63) :
    wrapInt64 v = v := by
  unfold wrapInt64
  omega

theorem microseconds_of_lt (t : Nat) (h : (t : Int) < 2 ^ 63) : microseconds t = t := by
  unfold microseconds
  have h1 : t % 2 ^ 64 = t := Nat.mod_eq_of_lt (by omega)
  rw [h1]
  exact wrapInt64_of_mem _ (by omega) h

/-- The state of a hold that started at tick `p`: the previous timestamp is still `p`, and
while the gesture is not active the time span lies between zero and the stable time. -/
def Holding (p : Int) (d : HandRaisedDetector) : Prop :=
  d.m_previousTimestamp = p ∧
  (d.m_bothHandsAreRaised = false →
    0 ≤ d.m_handRaisedTimeSpan ∧ d.m_handRaisedTimeSpan ≤ 2000000)

/-- The accumulate branch keeps the previous timestamp. -/
theorem debounce_true_m_previousTimestamp (d : HandRaisedDetector) (t : Int) :
    (debounce d true t).m_previousTimestamp = d.m_previousTimestamp := by
  unfold debounce
  simp only []
  split
  · split <;> rfl
  · simp

/-- The time span after the accumulate branch. -/
theorem debounce_true_m_handRaisedTimeSpan (d : HandRaisedDetector) (t : Int)
    (h : d.m_bothHandsAreRaised = false) :
    (debounce d true t).m_handRaisedTimeSpan
      = wrapInt64 (d.m_handRaisedTimeSpan + wrapInt64 (t - d.m_previousTimestamp)) := by
  unfold debounce
  simp only [h, Bool.not_false, Bool.and_self, if_true]
  split <;> rfl

/-- The flag after the accumulate branch. -/
theorem debounce_true_m_bothHandsAreRaised (d : HandRaisedDetector) (t : Int)
    (h : d.m_bothHandsAreRaised = false) :
    (debounce d true t).m_bothHandsAreRaised = true ↔
      wrapInt64 (d.m_handRaisedTimeSpan + wrapInt64 (t - d.m_previousTimestamp))
        > m_stableTime := by
  unfold debounce
  simp only [h, Bool.not_false, Bool.and_self, if_true]
  split
  · rename_i hgt; simpa using hgt
  · rename_i hgt; simpa [h] using hgt

/-- One more frame with raised hands during a hold that started at `p`. -/
theorem Holding_UpdateData (p : Int) (d : HandRaisedDetector) (selectedBody : k4abt_body_t)
    (t : Nat) (hp : 0 < p) (hd : Holding p d) (hraw : bothHandsAreRaised selectedBody = true)
    (hle : p ≤ (t : Int)) (hb : (t : Int) + 2000000 < 2 ^ 63) :
    Holding p (UpdateData d selectedBody t) ∧
    ((t : Int) - p > 2000000 → (UpdateData d selectedBody t).m_bothHandsAreRaised = true) ∧
    (d.m_bothHandsAreRaised = true →
      (UpdateData d selectedBody t).m_bothHandsAreRaised = true) := by
  obtain ⟨hprev, hspan⟩ := hd
  have hne : d.m_previousTimestamp ≠ 0 := by omega
  have hbs : bootstrapTimestamp (updateKeys d selectedBody) (microseconds t)
      = updateKeys d selectedBody := by
    simp [bootstrapTimestamp, hne]
  have hm : microseconds t = t := microseconds_of_lt t (by omega)
  have hu : UpdateData d selectedBody t
      = debounce (updateKeys d selectedBody) true (t : Int) := by
    simp only [UpdateData, hraw]
    rw [hbs, hm]
  have hpv : (UpdateData d selectedBody t).m_previousTimestamp = p := by
    rw [hu, debounce_true_m_previousTimestamp, updateKeys_m_previousTimestamp, hprev]
  cases ha : d.m_bothHandsAreRaised with
  | true =>
    have hact : (UpdateData d selectedBody t).m_bothHandsAreRaised = true := by
      rw [hu, debounce_active _ _ (by simpa using ha)]
      simpa using ha
    exact ⟨⟨hpv, fun hc => by simp [hact] at hc⟩, fun _ => hact, fun _ => hact⟩
  | false =>
    obtain ⟨h0, h1⟩ := hspan ha
    have hw1 : wrapInt64 ((t : Int) - p) = (t : Int) - p :=
      wrapInt64_of_mem _ (by omega) (by omega)
    have hw2 : wrapInt64 (d.m_handRaisedTimeSpan + ((t : Int) - p))
        = d.m_handRaisedTimeSpan + ((t : Int) - p) :=
      wrapInt64_of_mem _ (by omega) (by omega)
    have hka : (updateKeys d selectedBody).m_bothHandsAreRaised = false := by simpa using ha
    have hsp : (UpdateData d selectedBody t).m_handRaisedTimeSpan
        = d.m_handRaisedTimeSpan + ((t : Int) - p) := by
      rw [hu, debounce_true_m_handRaisedTimeSpan _ _ hka, updateKeys_m_handRaisedTimeSpan,
        updateKeys_m_previousTimestamp, hprev, hw1, hw2]
    have hfl : (UpdateData d selectedBody t).m_bothHandsAreRaised = true ↔
        d.m_handRaisedTimeSpan + ((t : Int) - p) > 2000000 := by
      rw [hu, debounce_true_m_bothHandsAreRaised _ _ hka, updateKeys_m_handRaisedTimeSpan,
        updateKeys_m_previousTimestamp, hprev, hw1, hw2]
      simp [m_stableTime]
    refine ⟨⟨hpv, fun hc => ?_⟩, fun hel => hfl.2 (by omega), fun hc => by simp at hc⟩
    have hnot : ¬ d.m_handRaisedTimeSpan + ((t : Int) - p) > 2000000 := fun hgt => by
      rw [hfl.2 hgt] at hc
      simp at hc
    rw [hsp]
    constructor <;> omega

/-- Any number of further frames with raised hands during a hold that started at `p`. -/
theorem Holding_runFrames (p : Int) (hp : 0 < p) (frames : List (k4abt_body_t × Nat)) :
    ∀ d : HandRaisedDetector, Holding p d →
      (∀ f ∈ frames, bothHandsAreRaised f.1 = true ∧ p ≤ (f.2 : Int) ∧
        (f.2 : Int) + 2000000 < 2 ^ 63) →
      Holding p (runFrames d frames) ∧
      (d.m_bothHandsAreRaised = true → (runFrames d frames).m_bothHandsAreRaised = true) := by
  induction frames with
  | nil => intro d hd _; exact ⟨hd, id⟩
  | cons f rest ih =>
    intro d hd hall
    obtain ⟨hraw, hle, hb⟩ := hall f (List.mem_cons_self _ _)
    obtain ⟨h1, _, h3⟩ := Holding_UpdateData p d f.1 f.2 hp hd hraw hle hb
    obtain ⟨h4, h5⟩ := ih (UpdateData d f.1 f.2) h1
      (fun g hg => hall g (List.mem_cons_of_mem _ hg))
    exact ⟨h4, fun ha => h5 (h3 ha)⟩

/-- The first frame of a hold, seen by a fresh detector at a non-zero timestamp. -/
theorem Holding_first (selectedBody : k4abt_body_t) (t : Nat) (hpos : 0 < t)
    (hb : (t : Int) + 2000000 < 2 ^ 63) (hraw : bothHandsAreRaised selectedBody = true) :
    Holding (t : Int) (UpdateData HandRaisedDetector.fresh selectedBody t) := by
  have hm : microseconds t = t := microseconds_of_lt t (by omega)
  simp only [UpdateData, hraw, hm]
  simp [Holding, bootstrapTimestamp, debounce, HandRaisedDetector.fresh, m_stableTime]

theorem runFrames_append (d : HandRaisedDetector) (xs ys : List (k4abt_body_t × Nat)) :
    runFrames d (xs ++ ys) = runFrames (runFrames d xs) ys := by
  simp [runFrames, List.foldl_append]

theorem runFrames_nil (d : HandRaisedDetector) : runFrames d [] = d := rfl

theorem runFrames_cons (d : HandRaisedDetector) (f : k4abt_body_t × Nat)
    (rest : List (k4abt_body_t × Nat)) :
    runFrames d (f :: rest) = runFrames (UpdateData d f.1 f.2) rest := rfl

/-- C1, on explicit inputs.  Scenario A of the specification: with raised hands at 0,
500000, 1000000, 1500000 and 2000000 microseconds the gesture is already active after the
frame at 2000000, where the elapsed time 2000000 does not exceed the threshold.  And with
raised hands at 0 and 2000001 the gesture is not active after the second frame, although
the elapsed time exceeds the threshold: a timestamp of zero leaves `m_previousTimestamp`
unset, so the hold is timed from the next frame. -/
theorem debounce_trigger_counterexample :
    (AreBothHandsRaised
        (runFrames HandRaisedDetector.fresh (heldAt [0, 500000, 1000000, 1500000, 2000000]))
      = true ∧ ¬ ((2000000 : Int) - 0 > 2000000)) ∧
    (AreBothHandsRaised (runFrames HandRaisedDetector.fresh (heldAt [0, 2000001])) = false ∧
      (2000001 : Int) - 0 > 2000000) := by
  refine ⟨⟨?_, by decide⟩, ?_, by decide⟩
  · simp [runFrames, heldAt, UpdateData, debounce, bootstrapTimestamp, updateKeys,
      bothHandsAreRaised, handsUp, bodyOfY, microseconds, wrapInt64, m_stableTime,
      HandRaisedDetector.fresh, AreBothHandsRaised]
  · simp [runFrames, heldAt, UpdateData, debounce, bootstrapTimestamp, updateKeys,
      bothHandsAreRaised, handsUp, bodyOfY, microseconds, wrapInt64, m_stableTime,
      HandRaisedDetector.fresh, AreBothHandsRaised]

/-- C1 as amended (debounce trigger): a fresh detector is shown frames with both wrists
above the head, at non-decreasing timestamps that start above zero and stay below
`2^63 - 2000000`; then `AreBothHandsRaised()` is true after every frame `k` whose
timestamp exceeds that of the first frame by more than 2 000 000 microseconds. -/
theorem debounce_trigger (frames : List (k4abt_body_t × Nat)) (k : Nat)
    (first frame : k4abt_body_t × Nat)
    (hraw : ∀ f ∈ frames,
      jointY f.1 .K4ABT_JOINT_WRIST_LEFT < jointY f.1 .K4ABT_JOINT_HEAD ∧
      jointY f.1 .K4ABT_JOINT_WRIST_RIGHT < jointY f.1 .K4ABT_JOINT_HEAD)
    (hsorted : (frames.map Prod.snd).Sorted (· ≤ ·))
    (hbound : ∀ f ∈ frames, (f.2 : Int) + 2000000 < 2 ^ 63)
    (hfirst : frames[0]? = some first) (hpos : 0 < first.2)
    (hk : frames[k]? = some frame)
    (hel : (frame.2 : Int) - (first.2 : Int) > 2000000) :
    AreBothHandsRaised (runFrames HandRaisedDetector.fresh (frames.take (k + 1))) = true := by
  cases frames with
  | nil => simp at hfirst
  | cons f0 rest =>
    simp only [List.getElem?_cons_zero, Option.some.injEq] at hfirst
    subst hfirst
    cases k with
    | zero =>
      simp only [List.getElem?_cons_zero, Option.some.injEq] at hk
      subst hk
      omega
    | succ j =>
      simp only [List.getElem?_cons_succ] at hk
      have hmem : frame ∈ rest := List.getElem?_mem hk
      simp only [List.map_cons, List.sorted_cons, List.mem_map, forall_exists_index,
        and_imp] at hsorted
      have hge : ∀ f ∈ rest, (f0.2 : Int) ≤ (f.2 : Int) := fun f hf => by
        have := hsorted.1 f.2 f hf rfl
        exact_mod_cast this
      have hall : ∀ f ∈ rest, bothHandsAreRaised f.1 = true ∧ (f0.2 : Int) ≤ (f.2 : Int) ∧
          (f.2 : Int) + 2000000 < 2 ^ 63 := fun f hf =>
        ⟨(bothHandsAreRaised_iff f.1).2 (hraw f (List.mem_cons_of_mem _ hf)), hge f hf,
          hbound f (List.mem_cons_of_mem _ hf)⟩
      have hp : (0 : Int) < (f0.2 : Int) := by exact_mod_cast hpos
      have h0 : Holding (f0.2 : Int) (UpdateData HandRaisedDetector.fresh f0.1 f0.2) :=
        Holding_first f0.1 f0.2 hpos (hbound f0 (List.mem_cons_self _ _))
          ((bothHandsAreRaised_iff f0.1).2 (hraw f0 (List.mem_cons_self _ _)))
      have h1 := (Holding_runFrames (f0.2 : Int) hp (rest.take j) _ h0
        (fun f hf => hall f (List.mem_of_mem_take hf))).1
      obtain ⟨hraw2, hle2, hb2⟩ := hall frame hmem
      have h2 := (Holding_UpdateData (f0.2 : Int) _ frame.1 frame.2 hp h1 hraw2 hle2 hb2).2.1 hel
      have htake : (f0 :: rest).take (j + 1 + 1) = (f0 :: rest.take j) ++ [frame] := by
        rw [List.take_succ_cons, List.take_succ, hk]
        rfl
      rw [htake, runFrames_append, runFrames_cons, runFrames_cons, runFrames_nil]
      exact h2

/-- Scenario A shifted by half a second: raised hands at 500000, 1000000, 1500000,
2000000, 2500000 and 2600000 microseconds; the gesture is active after the last frame,
2100000 microseconds after the first. -/
theorem debounce_trigger_witness :
    AreBothHandsRaised (runFrames HandRaisedDetector.fresh
      ((heldAt [500000, 1000000, 1500000, 2000000, 2500000, 2600000]).take (5 + 1))) = true :=
  debounce_trigger (heldAt [500000, 1000000, 1500000, 2000000, 2500000, 2600000]) 5
    (handsUp, 500000) (handsUp, 2600000)
    (by norm_num [heldAt, jointY, handsUp, bodyOfY])
    (by simp [heldAt])
    (by norm_num [heldAt])
    rfl (by decide) rfl (by norm_num)

/-- C2, the code on a failing input: raised hands at 1000, 1001000 and 2001000
microseconds span exactly 2 000 000 microseconds, which does not exceed the threshold, yet
the gesture is active after the third frame: the time span holds
`(1001000 - 1000) + (2001000 - 1000) = 3000000`, because `m_previousTimestamp` stays at
the first timestamp. -/
theorem debounce_floor_failing_input :
    (2001000 : Int) - 1000 ≤ 2000000 ∧
    (runFrames HandRaisedDetector.fresh (heldAt [1000, 1001000, 2001000])).m_previousTimestamp
      = 1000 ∧
    (runFrames HandRaisedDetector.fresh (heldAt [1000, 1001000, 2001000])).m_handRaisedTimeSpan
      = 3000000 ∧
    AreBothHandsRaised (runFrames HandRaisedDetector.fresh (heldAt [1000, 1001000, 2001000]))
      = true := by
  refine ⟨by decide, ?_, ?_, ?_⟩ <;>
  simp [runFrames, heldAt, UpdateData, debounce, bootstrapTimestamp, updateKeys,
    bothHandsAreRaised, handsUp, bodyOfY, microseconds, wrapInt64, m_stableTime,
    HandRaisedDetector.fresh, AreBothHandsRaised]

/-! ## The accumulator as implemented -/

/-- C11, the code on a failing input: a fresh detector sees raised hands at 1000 and then
twice at 1500000 microseconds.  After the first frame at 1500000 the gesture is not active
and the time span is 1499000; the second frame carries the same timestamp, yet it adds
another `1500000 - 1000 = 1499000` and activates the gesture, because
`m_previousTimestamp` is still the first timestamp. -/
theorem equal_timestamps_failing_input :
    AreBothHandsRaised (runFrames HandRaisedDetector.fresh (heldAt [1000, 1500000])) = false ∧
    (runFrames HandRaisedDetector.fresh (heldAt [1000, 1500000])).m_handRaisedTimeSpan
      = 1499000 ∧
    (runFrames HandRaisedDetector.fresh (heldAt [1000, 1500000])).m_previousTimestamp
      = 1000 ∧
    (runFrames HandRaisedDetector.fresh (heldAt [1000, 1500000, 1500000])).m_handRaisedTimeSpan
      = 2998000 ∧
    AreBothHandsRaised (runFrames HandRaisedDetector.fresh (heldAt [1000, 1500000, 1500000]))
      = true := by
  refine ⟨?_, ?_, ?_, ?_, ?_⟩ <;>
  simp [runFrames, heldAt, UpdateData, debounce, bootstrapTimestamp, updateKeys,
    bothHandsAreRaised, handsUp, bodyOfY, microseconds, wrapInt64, m_stableTime,
    HandRaisedDetector.fresh, AreBothHandsRaised]

/-- C12, the code on a failing input: a detector that saw raised hands at 1000
microseconds is not active; a call with raised hands at 2000 returns with
`m_previousTimestamp` still 1000, not 2000. -/
theorem previous_timestamp_failing_input :
    AreBothHandsRaised (UpdateData HandRaisedDetector.fresh handsUp 1000) = false ∧
    bothHandsAreRaised handsUp = true ∧
    (UpdateData (UpdateData HandRaisedDetector.fresh handsUp 1000) handsUp
      2000).m_previousTimestamp = 1000 ∧
    (UpdateData (UpdateData HandRaisedDetector.fresh handsUp 1000) handsUp
      2000).m_previousTimestamp ≠ microseconds 2000 := by
  refine ⟨?_, ?_, ?_, ?_⟩ <;>
  simp [UpdateData, debounce, bootstrapTimestamp, updateKeys,
    bothHandsAreRaised, handsUp, bodyOfY, microseconds, wrapInt64, m_stableTime,
    HandRaisedDetector.fresh, AreBothHandsRaised]

/-- A call that enters with `m_previousTimestamp` zero and the gesture not active ends
with the gesture not active, a zero time span, and the previous timestamp equal to the
current tick count if the raw condition is true and to zero if not. -/
theorem UpdateData_of_unset (d : HandRaisedDetector) (selectedBody : k4abt_body_t)
    (currentTimestampUsec : Nat) (hp : d.m_previousTimestamp = 0)
    (ha : d.m_bothHandsAreRaised = false) :
    (UpdateData d selectedBody currentTimestampUsec).m_bothHandsAreRaised = false ∧
    (UpdateData d selectedBody currentTimestampUsec).m_handRaisedTimeSpan = 0 ∧
    (UpdateData d selectedBody currentTimestampUsec).m_previousTimestamp
      = if bothHandsAreRaised selectedBody = true then microseconds currentTimestampUsec
        else 0 := by
  have hb : bootstrapTimestamp (updateKeys d selectedBody) (microseconds currentTimestampUsec)
      = { updateKeys d selectedBody with
          m_previousTimestamp := microseconds currentTimestampUsec
          m_handRaisedTimeSpan := 0 } := by
    simp [bootstrapTimestamp, hp]
  cases hr : bothHandsAreRaised selectedBody with
  | false => simp [UpdateData, hr, debounce_released]
  | true =>
    simp only [UpdateData, hr, hb]
    simp [debounce, ha, m_stableTime]

theorem bothHandsAreRaised_handsUp : bothHandsAreRaised handsUp = true := by decide

theorem bothHandsAreRaised_handsDown : bothHandsAreRaised handsDown = false := by decide

/-- A frame with lowered hands leaves the previous timestamp unset. -/
theorem UpdateData_handsDown_unset (d : HandRaisedDetector) (t : Nat) :
    (UpdateData d handsDown t).m_previousTimestamp = 0 := by
  simp [UpdateData, bothHandsAreRaised_handsDown, debounce_released]

/-- C13 (first-sample bootstrap causes no transition): in every state reachable from a
fresh detector with `m_previousTimestamp` zero on entry, an `UpdateData` call with any pose
and any timestamp ends with `AreBothHandsRaised()` false and a zero time span. -/
theorem bootstrap_no_transition (d : HandRaisedDetector) (hr : Reachable d)
    (hp : d.m_previousTimestamp = 0) (selectedBody : k4abt_body_t)
    (currentTimestampUsec : Nat) :
    AreBothHandsRaised (UpdateData d selectedBody currentTimestampUsec) = false ∧
    (UpdateData d selectedBody currentTimestampUsec).m_handRaisedTimeSpan = 0 := by
  have ha : d.m_bothHandsAreRaised = false := by
    cases h : d.m_bothHandsAreRaised with
    | false => rfl
    | true => exact absurd hp (hr.invariant.1 h).1
  have h := UpdateData_of_unset d selectedBody currentTimestampUsec hp ha
  exact ⟨h.1, h.2.1⟩

/-- A released detector is shown raised hands at the largest `uint64_t` timestamp. -/
theorem bootstrap_no_transition_witness :
    (UpdateData heldDetector handsDown 2500000).m_previousTimestamp = 0 ∧
    AreBothHandsRaised
      (UpdateData (UpdateData heldDetector handsDown 2500000) handsUp (2 ^ 64 - 1)) = false ∧
    (UpdateData (UpdateData heldDetector handsDown 2500000) handsUp
      (2 ^ 64 - 1)).m_handRaisedTimeSpan = 0 :=
  ⟨UpdateData_handsDown_unset heldDetector 2500000,
    bootstrap_no_transition (UpdateData heldDetector handsDown 2500000)
      (Reachable.step _ (.updateData handsDown 2500000) heldDetector_reachable.reachable)
      (UpdateData_handsDown_unset heldDetector 2500000) handsUp (2 ^ 64 - 1)⟩

/-- C18 (timestamp 0 is indistinguishable from unset): for a detector with
`m_previousTimestamp` zero and the gesture not active, a call with both wrists above the
head and timestamp 0 leaves `m_bothHandsAreRaised`, `m_handRaisedTimeSpan` and
`m_previousTimestamp` equal to those of a fresh detector; and a following call with raised
hands at any timestamp `t` ends with `AreBothHandsRaised()` false and a zero time span. -/
theorem zero_timestamp_is_unset (d : HandRaisedDetector) (hp : d.m_previousTimestamp = 0)
    (ha : d.m_bothHandsAreRaised = false) (selectedBody : k4abt_body_t)
    (hraw : jointY selectedBody .K4ABT_JOINT_WRIST_LEFT < jointY selectedBody .K4ABT_JOINT_HEAD ∧
      jointY selectedBody .K4ABT_JOINT_WRIST_RIGHT < jointY selectedBody .K4ABT_JOINT_HEAD) :
    (UpdateData d selectedBody 0).m_bothHandsAreRaised
      = HandRaisedDetector.fresh.m_bothHandsAreRaised ∧
    (UpdateData d selectedBody 0).m_handRaisedTimeSpan
      = HandRaisedDetector.fresh.m_handRaisedTimeSpan ∧
    (UpdateData d selectedBody 0).m_previousTimestamp
      = HandRaisedDetector.fresh.m_previousTimestamp ∧
    ∀ (nextBody : k4abt_body_t) (t : Nat),
      jointY nextBody .K4ABT_JOINT_WRIST_LEFT < jointY nextBody .K4ABT_JOINT_HEAD ∧
        jointY nextBody .K4ABT_JOINT_WRIST_RIGHT < jointY nextBody .K4ABT_JOINT_HEAD →
      AreBothHandsRaised (UpdateData (UpdateData d selectedBody 0) nextBody t) = false ∧
      (UpdateData (UpdateData d selectedBody 0) nextBody t).m_handRaisedTimeSpan = 0 := by
  obtain ⟨h1, h2, h3⟩ := UpdateData_of_unset d selectedBody 0 hp ha
  have hm : microseconds 0 = 0 := by decide
  rw [(bothHandsAreRaised_iff selectedBody).2 hraw, if_pos rfl, hm] at h3
  refine ⟨h1, h2, h3, fun nextBody t _ => ?_⟩
  have h := UpdateData_of_unset (UpdateData d selectedBody 0) nextBody t h3 h1
  exact ⟨h.1, h.2.1⟩

/-- A fresh detector sees raised hands at 0 and then at 5000000 microseconds. -/
theorem zero_timestamp_is_unset_witness :
    AreBothHandsRaised
      (UpdateData (UpdateData HandRaisedDetector.fresh handsUp 0) handsUp 5000000) = false ∧
    (UpdateData (UpdateData HandRaisedDetector.fresh handsUp 0) handsUp
      5000000).m_handRaisedTimeSpan = 0 :=
  (zero_timestamp_is_unset HandRaisedDetector.fresh rfl rfl handsUp
    (by norm_num [jointY, handsUp, bodyOfY])).2.2.2 handsUp 5000000
    (by norm_num [jointY, handsUp, bodyOfY])

/-! ## Independence of the two signals -/

/-- The key flags computed by the foot comparisons depend only on the prior key flags,
the level and the two foot heights. -/
theorem updateKeys_congr (d1 d2 : HandRaisedDetector) (b1 b2 : k4abt_body_t)
    (hk1 : d1.m_key1Pressed = d2.m_key1Pressed) (hk2 : d1.m_key2Pressed = d2.m_key2Pressed)
    (hl : d1.m_level = d2.m_level)
    (hfl : jointY b1 .K4ABT_JOINT_FOOT_LEFT = jointY b2 .K4ABT_JOINT_FOOT_LEFT)
    (hfr : jointY b1 .K4ABT_JOINT_FOOT_RIGHT = jointY b2 .K4ABT_JOINT_FOOT_RIGHT) :
    (updateKeys d1 b1).m_key1Pressed = (updateKeys d2 b2).m_key1Pressed ∧
    (updateKeys d1 b1).m_key2Pressed = (updateKeys d2 b2).m_key2Pressed := by
  rw [(updateKeys_keys d1 b1).1, (updateKeys_keys d1 b1).2, (updateKeys_keys d2 b2).1,
    (updateKeys_keys d2 b2).2, hk1, hk2, hl, hfl, hfr]
  exact ⟨rfl, rfl⟩

/-- The debounce members after the first-sample and accumulate / release blocks depend
only on the prior debounce members, the raw condition and the tick count. -/
theorem debounce_bootstrap_congr (d1 d2 : HandRaisedDetector) (r : Bool) (t : Int)
    (ha : d1.m_bothHandsAreRaised = d2.m_bothHandsAreRaised)
    (hs : d1.m_handRaisedTimeSpan = d2.m_handRaisedTimeSpan)
    (hp : d1.m_previousTimestamp = d2.m_previousTimestamp) :
    (debounce (bootstrapTimestamp d1 t) r t).m_bothHandsAreRaised
      = (debounce (bootstrapTimestamp d2 t) r t).m_bothHandsAreRaised ∧
    (debounce (bootstrapTimestamp d1 t) r t).m_handRaisedTimeSpan
      = (debounce (bootstrapTimestamp d2 t) r t).m_handRaisedTimeSpan ∧
    (debounce (bootstrapTimestamp d1 t) r t).m_previousTimestamp
      = (debounce (bootstrapTimestamp d2 t) r t).m_previousTimestamp := by
  unfold debounce bootstrapTimestamp
  simp only [hp]
  split <;> simp only [ha, hs, hp] <;> split <;> (try split) <;> simp_all

/-- `UpdateData` leaves `m_level` alone. -/
theorem UpdateData_m_level (d : HandRaisedDetector) (selectedBody : k4abt_body_t)
    (currentTimestampUsec : Nat) :
    (UpdateData d selectedBody currentTimestampUsec).m_level = d.m_level := by
  unfold UpdateData debounce bootstrapTimestamp
  simp only []
  split <;> split <;> (try split) <;> simp

/-- C19 (independence of the two signals): for any two `UpdateData` calls, if the prior
`m_key1Pressed`, `m_key2Pressed`, `m_level` and the two foot heights agree, the resulting
`Key1Pressed()` and `Key2Pressed()` agree; if the prior `m_bothHandsAreRaised`,
`m_handRaisedTimeSpan`, `m_previousTimestamp`, the timestamp and the wrist and head heights
agree, the resulting three debounce members and `AreBothHandsRaised()` agree; and
`UpdateData` does not modify `m_level`. -/
theorem signals_independent (d1 d2 : HandRaisedDetector) (b1 b2 : k4abt_body_t)
    (t1 t2 : Nat) :
    (d1.m_key1Pressed = d2.m_key1Pressed → d1.m_key2Pressed = d2.m_key2Pressed →
      d1.m_level = d2.m_level →
      jointY b1 .K4ABT_JOINT_FOOT_LEFT = jointY b2 .K4ABT_JOINT_FOOT_LEFT →
      jointY b1 .K4ABT_JOINT_FOOT_RIGHT = jointY b2 .K4ABT_JOINT_FOOT_RIGHT →
      Key1Pressed (UpdateData d1 b1 t1) = Key1Pressed (UpdateData d2 b2 t2) ∧
      Key2Pressed (UpdateData d1 b1 t1) = Key2Pressed (UpdateData d2 b2 t2)) ∧
    (d1.m_bothHandsAreRaised = d2.m_bothHandsAreRaised →
      d1.m_handRaisedTimeSpan = d2.m_handRaisedTimeSpan →
      d1.m_previousTimestamp = d2.m_previousTimestamp → t1 = t2 →
      jointY b1 .K4ABT_JOINT_WRIST_LEFT = jointY b2 .K4ABT_JOINT_WRIST_LEFT →
      jointY b1 .K4ABT_JOINT_WRIST_RIGHT = jointY b2 .K4ABT_JOINT_WRIST_RIGHT →
      jointY b1 .K4ABT_JOINT_HEAD = jointY b2 .K4ABT_JOINT_HEAD →
      AreBothHandsRaised (UpdateData d1 b1 t1) = AreBothHandsRaised (UpdateData d2 b2 t2) ∧
      (UpdateData d1 b1 t1).m_bothHandsAreRaised = (UpdateData d2 b2 t2).m_bothHandsAreRaised ∧
      (UpdateData d1 b1 t1).m_handRaisedTimeSpan = (UpdateData d2 b2 t2).m_handRaisedTimeSpan ∧
      (UpdateData d1 b1 t1).m_previousTimestamp = (UpdateData d2 b2 t2).m_previousTimestamp) ∧
    (UpdateData d1 b1 t1).m_level = d1.m_level := by
  refine ⟨fun hk1 hk2 hl hfl hfr => ?_, fun ha hs hp ht hwl hwr hh => ?_,
    UpdateData_m_level d1 b1 t1⟩
  · rw [(UpdateData_keys d1 b1 t1).1, (UpdateData_keys d1 b1 t1).2,
      (UpdateData_keys d2 b2 t2).1, (UpdateData_keys d2 b2 t2).2]
    exact updateKeys_congr d1 d2 b1 b2 hk1 hk2 hl hfl hfr
  · subst ht
    have hraw : bothHandsAreRaised b1 = bothHandsAreRaised b2 := by
      simp only [jointY] at hwl hwr hh
      simp only [bothHandsAreRaised, hwl, hwr, hh]
    have h := debounce_bootstrap_congr (updateKeys d1 b1) (updateKeys d2 b2)
      (bothHandsAreRaised b2) (microseconds t1) (by simpa using ha) (by simpa using hs)
      (by simpa using hp)
    simp only [UpdateData, AreBothHandsRaised, hraw]
    exact ⟨h.1, h.1, h.2.1, h.2.2⟩

/-- Two detectors that agree on the key members but not on the debounce members, shown
poses with the same foot heights and different hands at different timestamps, end with the
same key flags; two that agree on the debounce members but not on the keys and level,
shown raised hands at the same timestamp with different feet, end with the same flag. -/
theorem signals_independent_witness :
    (Key1Pressed (UpdateData activeDetector handsUp 5)
        = Key1Pressed (UpdateData (UpdateData activeDetector handsDown 7) handsDown 9) ∧
      Key2Pressed (UpdateData activeDetector handsUp 5)
        = Key2Pressed (UpdateData (UpdateData activeDetector handsDown 7) handsDown 9)) ∧
    AreBothHandsRaised (UpdateData heldDetector handsUp 3000000)
      = AreBothHandsRaised
          (UpdateData (setLevel heldDetector (-1)) (bodyOfY (-1) (-1) 0 4 0) 3000000) :=
  ⟨(signals_independent activeDetector (UpdateData activeDetector handsDown 7) handsUp
      handsDown 5 9).1
      (by simp [UpdateData]; simp [updateKeys, handsDown, bodyOfY, activeDetector,
        HandRaisedDetector.fresh])
      (by simp [UpdateData]; simp [updateKeys, handsDown, bodyOfY, activeDetector,
        HandRaisedDetector.fresh])
      (by simp [UpdateData_m_level])
      (by simp [jointY, handsUp, handsDown, bodyOfY])
      (by simp [jointY, handsUp, handsDown, bodyOfY]),
    ((signals_independent heldDetector (setLevel heldDetector (-1)) handsUp
      (bodyOfY (-1) (-1) 0 4 0) 3000000 3000000).2.1 (by simp [setLevel])
      (by simp [setLevel]) (by simp [setLevel]) rfl
      (by simp [jointY, handsUp, bodyOfY]) (by simp [jointY, handsUp, bodyOfY])
      (by simp [jointY, handsUp, bodyOfY])).1⟩

/-- A call that enters with `m_previousTimestamp` set and the gesture not active, with the
raw condition true: the previous timestamp stays, the time span grows by the ticks since
the previous timestamp, and the gesture is active exactly if the new time span exceeds the
stable time. -/
theorem UpdateData_accumulate (d : HandRaisedDetector) (selectedBody : k4abt_body_t)
    (currentTimestampUsec : Nat) (hp : d.m_previousTimestamp ≠ 0)
    (ha : d.m_bothHandsAreRaised = false) (hraw : bothHandsAreRaised selectedBody = true) :
    (UpdateData d selectedBody currentTimestampUsec).m_previousTimestamp
      = d.m_previousTimestamp ∧
    (UpdateData d selectedBody currentTimestampUsec).m_handRaisedTimeSpan
      = wrapInt64 (d.m_handRaisedTimeSpan
          + wrapInt64 (microseconds currentTimestampUsec - d.m_previousTimestamp)) ∧
    ((UpdateData d selectedBody currentTimestampUsec).m_bothHandsAreRaised = true ↔
      wrapInt64 (d.m_handRaisedTimeSpan
          + wrapInt64 (microseconds currentTimestampUsec - d.m_previousTimestamp))
        > 2000000) := by
  have hbs : bootstrapTimestamp (updateKeys d selectedBody) (microseconds currentTimestampUsec)
      = updateKeys d selectedBody := by
    simp [bootstrapTimestamp, hp]
  have hu : UpdateData d selectedBody currentTimestampUsec
      = debounce (updateKeys d selectedBody) true (microseconds currentTimestampUsec) := by
    simp only [UpdateData, hraw]
    rw [hbs]
  have hka : (updateKeys d selectedBody).m_bothHandsAreRaised = false := by simpa using ha
  refine ⟨?_, ?_, ?_⟩
  · rw [hu, debounce_true_m_previousTimestamp, updateKeys_m_previousTimestamp]
  · rw [hu, debounce_true_m_handRaisedTimeSpan _ _ hka, updateKeys_m_handRaisedTimeSpan,
      updateKeys_m_previousTimestamp]
  · rw [hu, debounce_true_m_bothHandsAreRaised _ _ hka, updateKeys_m_handRaisedTimeSpan,
      updateKeys_m_previousTimestamp]
    simp [m_stableTime]

/-! ## Holding the hands up again after a release -/

/-- The first frame of a hold, seen at a non-zero timestamp by a detector whose previous
timestamp is unset and whose gesture is not active. -/
theorem Holding_of_unset (d : HandRaisedDetector) (selectedBody : k4abt_body_t) (t : Nat)
    (hp : d.m_previousTimestamp = 0) (ha : d.m_bothHandsAreRaised = false)
    (hb : (t : Int) + 2000000 < 2 ^ 63) (hraw : bothHandsAreRaised selectedBody = true) :
    Holding (t : Int) (UpdateData d selectedBody t) := by
  obtain ⟨h1, h2, h3⟩ := UpdateData_of_unset d selectedBody t hp ha
  rw [hraw, if_pos rfl, microseconds_of_lt t (by omega)] at h3
  exact ⟨h3, fun _ => by rw [h2]; decide⟩

/-- A hold that starts with the previous timestamp unset and the gesture not active: the
gesture is active after every frame more than 2000000 microseconds after the first. -/
theorem runFrames_trigger_of_unset (d : HandRaisedDetector)
    (hp : d.m_previousTimestamp = 0) (ha : d.m_bothHandsAreRaised = false)
    (frames : List (k4abt_body_t × Nat)) (k : Nat) (first frame : k4abt_body_t × Nat)
    (hraw : ∀ f ∈ frames, bothHandsAreRaised f.1 = true)
    (hsorted : (frames.map Prod.snd).Sorted (· ≤ ·))
    (hbound : ∀ f ∈ frames, (f.2 : Int) + 2000000 < 2 ^ 63)
    (hfirst : frames[0]? = some first) (hpos : 0 < first.2)
    (hk : frames[k]? = some frame)
    (hel : (frame.2 : Int) - (first.2 : Int) > 2000000) :
    (runFrames d (frames.take (k + 1))).m_bothHandsAreRaised = true := by
  cases frames with
  | nil => simp at hfirst
  | cons f0 rest =>
    simp only [List.getElem?_cons_zero, Option.some.injEq] at hfirst
    subst hfirst
    cases k with
    | zero =>
      simp only [List.getElem?_cons_zero, Option.some.injEq] at hk
      subst hk
      omega
    | succ j =>
      simp only [List.getElem?_cons_succ] at hk
      have hmem : frame ∈ rest := List.getElem?_mem hk
      simp only [List.map_cons, List.sorted_cons, List.mem_map, forall_exists_index,
        and_imp] at hsorted
      have hall : ∀ f ∈ rest, bothHandsAreRaised f.1 = true ∧ (f0.2 : Int) ≤ (f.2 : Int) ∧
          (f.2 : Int) + 2000000 < 2 ^ 63 := fun f hf =>
        ⟨hraw f (List.mem_cons_of_mem _ hf), by exact_mod_cast hsorted.1 f.2 f hf rfl,
          hbound f (List.mem_cons_of_mem _ hf)⟩
      have hp0 : (0 : Int) < (f0.2 : Int) := by exact_mod_cast hpos
      have h0 : Holding (f0.2 : Int) (UpdateData d f0.1 f0.2) :=
        Holding_of_unset d f0.1 f0.2 hp ha (hbound f0 (List.mem_cons_self _ _))
          (hraw f0 (List.mem_cons_self _ _))
      have h1 := (Holding_runFrames (f0.2 : Int) hp0 (rest.take j) _ h0
        (fun f hf => hall f (List.mem_of_mem_take hf))).1
      obtain ⟨hraw2, hle2, hb2⟩ := hall frame hmem
      have h2 := (Holding_UpdateData (f0.2 : Int) _ frame.1 frame.2 hp0 h1 hraw2 hle2 hb2).2.1 hel
      have htake : (f0 :: rest).take (j + 1 + 1) = (f0 :: rest.take j) ++ [frame] := by
        rw [List.take_succ_cons, List.take_succ, hk]
        rfl
      rw [htake, runFrames_append, runFrames_cons, runFrames_cons, runFrames_nil]
      exact h2

/-- C14, on an explicit input: an active detector is released at 1200000 microseconds and
then shown raised hands at timestamps 1 and `2^64 - 1`.  The second timestamp becomes the
tick count -1, the call adds `-1 - 1 = -2` to the time span, and the gesture is not
active, although the two timestamps are more than 2000000 apart. -/
theorem retrigger_counterexample :
    bothHandsAreRaised handsDown = false ∧
    ((2 ^ 64 - 1 : Nat) : Int) - ((1 : Nat) : Int) > 2000000 ∧
    microseconds (2 ^ 64 - 1) = -1 ∧
    (runFrames (UpdateData heldDetector handsDown 1200000)
      (heldAt [1, 2 ^ 64 - 1])).m_handRaisedTimeSpan = -2 ∧
    AreBothHandsRaised
      (runFrames (UpdateData heldDetector handsDown 1200000) (heldAt [1, 2 ^ 64 - 1]))
      = false := by
  have hm : microseconds (2 ^ 64 - 1) = -1 := by decide
  have hm1 : microseconds 1 = 1 := by decide
  obtain ⟨h1, h2, h3⟩ := UpdateData_of_unset (UpdateData heldDetector handsDown 1200000)
    handsUp 1 (UpdateData_handsDown_unset heldDetector 1200000)
    (by simp [UpdateData, bothHandsAreRaised_handsDown, debounce_released])
  rw [bothHandsAreRaised_handsUp, if_pos rfl, hm1] at h3
  obtain ⟨_, h5, h6⟩ := UpdateData_accumulate
    (UpdateData (UpdateData heldDetector handsDown 1200000) handsUp 1) handsUp (2 ^ 64 - 1)
    (by rw [h3]; decide) h1 bothHandsAreRaised_handsUp
  have hw : wrapInt64 (0 + wrapInt64 (-1 - 1)) = -2 := by decide
  rw [h2, h3, hm, hw] at h5 h6
  have he : runFrames (UpdateData heldDetector handsDown 1200000) (heldAt [1, 2 ^ 64 - 1])
      = UpdateData (UpdateData (UpdateData heldDetector handsDown 1200000) handsUp 1)
          handsUp (2 ^ 64 - 1) := by
    simp only [runFrames, heldAt, List.map_cons, List.map_nil, List.foldl_cons, List.foldl_nil]
  rw [he]
  refine ⟨bothHandsAreRaised_handsDown, by norm_num, hm, h5, ?_⟩
  unfold AreBothHandsRaised
  cases hc : (UpdateData (UpdateData (UpdateData heldDetector handsDown 1200000) handsUp 1)
      handsUp (2 ^ 64 - 1)).m_bothHandsAreRaised with
  | false => rfl
  | true => exact absurd (h6.1 hc) (by decide)

/-- C14 as amended (re-trigger after a release): from every detector state, reachable or
not, one `UpdateData` call with the raw condition false is followed by calls with both wrists above
the head, at non-decreasing timestamps that start above zero and stay below
`2^63 - 2000000`; then `AreBothHandsRaised()` is true after every frame whose timestamp
exceeds that of the first frame after the release by more than 2 000 000 microseconds. -/
theorem retrigger_after_release (d : HandRaisedDetector)
    (releaseBody : k4abt_body_t) (releaseTimestampUsec : Nat)
    (hdown : jointY releaseBody .K4ABT_JOINT_WRIST_LEFT ≥ jointY releaseBody .K4ABT_JOINT_HEAD ∨
      jointY releaseBody .K4ABT_JOINT_WRIST_RIGHT ≥ jointY releaseBody .K4ABT_JOINT_HEAD)
    (frames : List (k4abt_body_t × Nat)) (k : Nat) (first frame : k4abt_body_t × Nat)
    (hraw : ∀ f ∈ frames,
      jointY f.1 .K4ABT_JOINT_WRIST_LEFT < jointY f.1 .K4ABT_JOINT_HEAD ∧
      jointY f.1 .K4ABT_JOINT_WRIST_RIGHT < jointY f.1 .K4ABT_JOINT_HEAD)
    (hsorted : (frames.map Prod.snd).Sorted (· ≤ ·))
    (hbound : ∀ f ∈ frames, (f.2 : Int) + 2000000 < 2 ^ 63)
    (hfirst : frames[0]? = some first) (hpos : 0 < first.2)
    (hk : frames[k]? = some frame)
    (hel : (frame.2 : Int) - (first.2 : Int) > 2000000) :
    AreBothHandsRaised
      (runFrames (UpdateData d releaseBody releaseTimestampUsec) (frames.take (k + 1)))
      = true := by
  have hf := bothHandsAreRaised_eq_false releaseBody hdown
  have hp : (UpdateData d releaseBody releaseTimestampUsec).m_previousTimestamp = 0 := by
    simp [UpdateData, hf, debounce_released]
  have ha : (UpdateData d releaseBody releaseTimestampUsec).m_bothHandsAreRaised = false := by
    simp [UpdateData, hf, debounce_released]
  exact runFrames_trigger_of_unset _ hp ha frames k first frame
    (fun f hm => (bothHandsAreRaised_iff f.1).2 (hraw f hm)) hsorted hbound hfirst hpos hk hel

/-- Scenario B of the specification: raised hands at 0 and 1000000 microseconds, lowered
hands at 1200000, raised hands again at 1200000 and 3300000; the gesture is active after
the frame at 3300000. -/
theorem retrigger_after_release_witness :
    AreBothHandsRaised
      (runFrames
        (UpdateData (UpdateData (UpdateData HandRaisedDetector.fresh handsUp 0) handsUp 1000000)
          handsDown 1200000)
        ((heldAt [1200000, 3300000]).take (1 + 1))) = true :=
  retrigger_after_release
    (UpdateData (UpdateData HandRaisedDetector.fresh handsUp 0) handsUp 1000000)
    handsDown 1200000 (Or.inl (by norm_num [jointY, handsDown, bodyOfY]))
    (heldAt [1200000, 3300000]) 1 (handsUp, 1200000) (handsUp, 3300000)
    (by norm_num [heldAt, jointY, handsUp, bodyOfY])
    (by simp [heldAt])
    (by norm_num [heldAt])
    rfl (by decide) rfl (by norm_num)

/-! ## The time span under non-decreasing timestamps -/

/-- A call that enters with `m_previousTimestamp` set and the gesture active, with the raw
condition true, changes none of the three debounce members. -/
theorem UpdateData_frozen (d : HandRaisedDetector) (selectedBody : k4abt_body_t)
    (currentTimestampUsec : Nat) (hp : d.m_previousTimestamp ≠ 0)
    (ha : d.m_bothHandsAreRaised = true) (hraw : bothHandsAreRaised selectedBody = true) :
    (UpdateData d selectedBody currentTimestampUsec).m_previousTimestamp
      = d.m_previousTimestamp ∧
    (UpdateData d selectedBody currentTimestampUsec).m_handRaisedTimeSpan
      = d.m_handRaisedTimeSpan ∧
    (UpdateData d selectedBody currentTimestampUsec).m_bothHandsAreRaised = true := by
  have hb : bootstrapTimestamp (updateKeys d selectedBody)
      (microseconds currentTimestampUsec) = updateKeys d selectedBody := by
    simp [bootstrapTimestamp, hp]
  have hu : UpdateData d selectedBody currentTimestampUsec = updateKeys d selectedBody := by
    simp only [UpdateData, hb, hraw]
    exact debounce_active _ _ (by simpa using ha)
  simp [hu, ha]

/-- What holds of the debounce members while the timestamps do not decrease: the previous
timestamp and the time span are not negative, an unset previous timestamp comes with a
zero time span and no active gesture, and the time span of a gesture that is not active
is at most the stable time. -/
def Tracking (d : HandRaisedDetector) : Prop :=
  0 ≤ d.m_previousTimestamp ∧ 0 ≤ d.m_handRaisedTimeSpan ∧
  (d.m_previousTimestamp = 0 →
    d.m_handRaisedTimeSpan = 0 ∧ d.m_bothHandsAreRaised = false) ∧
  (d.m_bothHandsAreRaised = false → d.m_handRaisedTimeSpan ≤ 2000000)

theorem Tracking_fresh : Tracking HandRaisedDetector.fresh := by
  simp [Tracking, HandRaisedDetector.fresh]

/-- One call at a timestamp that is not before the stored previous timestamp. -/
theorem Tracking_UpdateData (d : HandRaisedDetector) (selectedBody : k4abt_body_t) (t : Nat)
    (hd : Tracking d) (hle : d.m_previousTimestamp ≤ (t : Int))
    (hb : (t : Int) + 2000000 < 2 ^ 63) :
    Tracking (UpdateData d selectedBody t) ∧
    ((UpdateData d selectedBody t).m_previousTimestamp = d.m_previousTimestamp ∨
      (UpdateData d selectedBody t).m_previousTimestamp = (t : Int) ∨
      (UpdateData d selectedBody t).m_previousTimestamp = 0) ∧
    (bothHandsAreRaised selectedBody = true →
      d.m_handRaisedTimeSpan ≤ (UpdateData d selectedBody t).m_handRaisedTimeSpan) ∧
    (bothHandsAreRaised selectedBody = false →
      (UpdateData d selectedBody t).m_handRaisedTimeSpan = 0) := by
  obtain ⟨hp0, hs0, hunset, hsmall⟩ := hd
  have hm : microseconds t = t := microseconds_of_lt t (by omega)
  cases hraw : bothHandsAreRaised selectedBody with
  | false =>
    have h1 : (UpdateData d selectedBody t).m_previousTimestamp = 0 := by
      simp [UpdateData, hraw, debounce_released]
    have h2 : (UpdateData d selectedBody t).m_handRaisedTimeSpan = 0 := by
      simp [UpdateData, hraw, debounce_released]
    have h3 : (UpdateData d selectedBody t).m_bothHandsAreRaised = false := by
      simp [UpdateData, hraw, debounce_released]
    refine ⟨⟨by omega, by omega, fun _ => ⟨h2, h3⟩, fun _ => by omega⟩, Or.inr (Or.inr h1),
      fun hc => by simp at hc, fun _ => h2⟩
  | true =>
    by_cases hp : d.m_previousTimestamp = 0
    · obtain ⟨hz, ha⟩ := hunset hp
      obtain ⟨h1, h2, h3⟩ := UpdateData_of_unset d selectedBody t hp ha
      rw [hraw, if_pos rfl, hm] at h3
      refine ⟨⟨by omega, by omega, fun _ => ⟨h2, h1⟩, fun _ => by omega⟩, Or.inr (Or.inl h3),
        fun _ => by omega, fun hc => by simp at hc⟩
    · cases ha : d.m_bothHandsAreRaised with
      | true =>
        obtain ⟨h1, h2, h3⟩ := UpdateData_frozen d selectedBody t hp ha hraw
        refine ⟨⟨by omega, by omega, fun hc => absurd (h1 ▸ hc) hp,
          fun hc => by rw [h3] at hc; simp at hc⟩, Or.inl h1, fun _ => by omega,
          fun hc => by simp at hc⟩
      | false =>
        have hsm := hsmall ha
        obtain ⟨h1, h2, h3⟩ := UpdateData_accumulate d selectedBody t hp ha hraw
        have hw1 : wrapInt64 ((t : Int) - d.m_previousTimestamp)
            = (t : Int) - d.m_previousTimestamp :=
          wrapInt64_of_mem _ (by omega) (by omega)
        have hw2 : wrapInt64 (d.m_handRaisedTimeSpan + ((t : Int) - d.m_previousTimestamp))
            = d.m_handRaisedTimeSpan + ((t : Int) - d.m_previousTimestamp) :=
          wrapInt64_of_mem _ (by omega) (by omega)
        rw [hm, hw1, hw2] at h2 h3
        refine ⟨⟨by omega, by omega, fun hc => absurd (h1 ▸ hc) hp, fun hc => ?_⟩, Or.inl h1,
          fun _ => by omega, fun hc => by simp at hc⟩
        have hnot : ¬ d.m_handRaisedTimeSpan + ((t : Int) - d.m_previousTimestamp) > 2000000 :=
          fun hgt => by rw [h3.2 hgt] at hc; simp at hc
        omega

/-- Any number of calls at non-decreasing timestamps that are not before the stored
previous timestamp; the previous timestamp stays below every bound on the timestamps. -/
theorem Tracking_runFrames (frames : List (k4abt_body_t × Nat)) :
    ∀ d : HandRaisedDetector, Tracking d →
      (∀ g ∈ frames, d.m_previousTimestamp ≤ (g.2 : Int) ∧ (g.2 : Int) + 2000000 < 2 ^ 63) →
      (frames.map Prod.snd).Sorted (· ≤ ·) →
      Tracking (runFrames d frames) ∧
      ∀ M : Int, d.m_previousTimestamp ≤ M → (∀ g ∈ frames, (g.2 : Int) ≤ M) →
        (runFrames d frames).m_previousTimestamp ≤ M := by
  induction frames with
  | nil => intro d hd _ _; exact ⟨hd, fun M hM _ => hM⟩
  | cons f rest ih =>
    intro d hd hall hsorted
    simp only [List.map_cons, List.sorted_cons, List.mem_map, forall_exists_index,
      and_imp] at hsorted
    obtain ⟨hle, hb⟩ := hall f (List.mem_cons_self _ _)
    obtain ⟨h1, h2, _, _⟩ := Tracking_UpdateData d f.1 f.2 hd hle hb
    have hnext : ∀ g ∈ rest, (UpdateData d f.1 f.2).m_previousTimestamp ≤ (g.2 : Int) ∧
        (g.2 : Int) + 2000000 < 2 ^ 63 := fun g hg => by
      obtain ⟨hg1, hg2⟩ := hall g (List.mem_cons_of_mem _ hg)
      have hfg : (f.2 : Int) ≤ (g.2 : Int) := by exact_mod_cast hsorted.1 g.2 g hg rfl
      refine ⟨?_, hg2⟩
      rcases h2 with h | h | h <;> rw [h] <;> omega
    obtain ⟨h3, h4⟩ := ih (UpdateData d f.1 f.2) h1 hnext hsorted.2
    refine ⟨h3, fun M hM hall2 => h4 M ?_ (fun g hg => hall2 g (List.mem_cons_of_mem _ hg))⟩
    have hf := hall2 f (List.mem_cons_self _ _)
    have := hd.1
    rcases h2 with h | h | h <;> rw [h] <;> omega

/-- C15, on an explicit input: raised hands at 1, 1000001 and `2^63 - 1` microseconds, all
below `2^63` and non-decreasing.  After the second frame the time span is 1000000; the
third frame adds `2^63 - 2`, the sum leaves the range of the signed 64-bit tick count, and
the time span wraps to a negative value, below its value before the call. -/
theorem monotone_accumulator_counterexample :
    (9223372036854775807 : Nat) < 2 ^ 63 ∧
    bothHandsAreRaised handsUp = true ∧
    (runFrames HandRaisedDetector.fresh (heldAt [1, 1000001])).m_handRaisedTimeSpan
      = 1000000 ∧
    (runFrames HandRaisedDetector.fresh
      (heldAt [1, 1000001, 9223372036854775807])).m_handRaisedTimeSpan
      = -9223372036853775810 := by
  have he : runFrames HandRaisedDetector.fresh (heldAt [1, 1000001, 9223372036854775807])
      = UpdateData (runFrames HandRaisedDetector.fresh (heldAt [1, 1000001])) handsUp
          9223372036854775807 := by
    simp only [runFrames, heldAt, List.map_cons, List.map_nil, List.foldl_cons, List.foldl_nil]
  have h1 : (runFrames HandRaisedDetector.fresh (heldAt [1, 1000001])).m_handRaisedTimeSpan
      = 1000000 := by
    simp [runFrames, heldAt, UpdateData, debounce, bootstrapTimestamp, updateKeys,
      bothHandsAreRaised, handsUp, bodyOfY, microseconds, wrapInt64, m_stableTime,
      HandRaisedDetector.fresh]
  have h2 : (runFrames HandRaisedDetector.fresh (heldAt [1, 1000001])).m_previousTimestamp
      = 1 := by
    simp [runFrames, heldAt, UpdateData, debounce, bootstrapTimestamp, updateKeys,
      bothHandsAreRaised, handsUp, bodyOfY, microseconds, wrapInt64, m_stableTime,
      HandRaisedDetector.fresh]
  have h3 : (runFrames HandRaisedDetector.fresh (heldAt [1, 1000001])).m_bothHandsAreRaised
      = false := by
    simp [runFrames, heldAt, UpdateData, debounce, bootstrapTimestamp, updateKeys,
      bothHandsAreRaised, handsUp, bodyOfY, microseconds, wrapInt64, m_stableTime,
      HandRaisedDetector.fresh]
  have h4 := (UpdateData_accumulate (runFrames HandRaisedDetector.fresh (heldAt [1, 1000001]))
    handsUp 9223372036854775807 (by rw [h2]; decide) h3 bothHandsAreRaised_handsUp).2.1
  have hm : microseconds 9223372036854775807 = 9223372036854775807 := by decide
  have hw : wrapInt64 (1000000 + wrapInt64 (9223372036854775807 - 1))
      = -9223372036853775810 := by decide
  rw [h1, h2, hm, hw] at h4
  exact ⟨by norm_num, bothHandsAreRaised_handsUp, h1, by rw [he, h4]⟩

/-- C15 as amended (monotonic, non-negative accumulator): a fresh detector is driven by
`UpdateData` calls with any poses at non-decreasing timestamps below `2^63 - 2000000`.
Then `m_handRaisedTimeSpan` is not negative before and after every call; a call with
the raw condition true leaves it at least as large as before; a call with the raw
condition false leaves it zero; so it only drops on a call with the raw condition false,
and then to zero. -/
theorem monotone_accumulator (frames : List (k4abt_body_t × Nat)) (frame : k4abt_body_t × Nat)
    (hsorted : ((frames ++ [frame]).map Prod.snd).Sorted (· ≤ ·))
    (hbound : ∀ f ∈ frames ++ [frame], (f.2 : Int) + 2000000 < 2 ^ 63) :
    0 ≤ (runFrames HandRaisedDetector.fresh frames).m_handRaisedTimeSpan ∧
    0 ≤ (runFrames HandRaisedDetector.fresh (frames ++ [frame])).m_handRaisedTimeSpan ∧
    (bothHandsAreRaised frame.1 = true →
      (runFrames HandRaisedDetector.fresh frames).m_handRaisedTimeSpan
        ≤ (runFrames HandRaisedDetector.fresh (frames ++ [frame])).m_handRaisedTimeSpan) ∧
    (bothHandsAreRaised frame.1 = false →
      (runFrames HandRaisedDetector.fresh (frames ++ [frame])).m_handRaisedTimeSpan = 0) ∧
    ((runFrames HandRaisedDetector.fresh (frames ++ [frame])).m_handRaisedTimeSpan
        < (runFrames HandRaisedDetector.fresh frames).m_handRaisedTimeSpan →
      bothHandsAreRaised frame.1 = false ∧
      (runFrames HandRaisedDetector.fresh (frames ++ [frame])).m_handRaisedTimeSpan = 0) := by
  rw [List.map_append, List.Sorted, List.pairwise_append] at hsorted
  obtain ⟨hs1, _, hs3⟩ := hsorted
  have hall : ∀ g ∈ frames, HandRaisedDetector.fresh.m_previousTimestamp ≤ (g.2 : Int) ∧
      (g.2 : Int) + 2000000 < 2 ^ 63 := fun g hg =>
    ⟨by simp [HandRaisedDetector.fresh], hbound g (List.mem_append_left _ hg)⟩
  obtain ⟨ht, hM⟩ := Tracking_runFrames frames HandRaisedDetector.fresh Tracking_fresh hall hs1
  have hle : (runFrames HandRaisedDetector.fresh frames).m_previousTimestamp
      ≤ (frame.2 : Int) :=
    hM (frame.2 : Int) (by simp [HandRaisedDetector.fresh]) (fun g hg => by
      have := hs3 g.2 (List.mem_map.2 ⟨g, hg, rfl⟩) frame.2 (by simp)
      exact_mod_cast this)
  obtain ⟨h1, _, h3, h4⟩ := Tracking_UpdateData (runFrames HandRaisedDetector.fresh frames)
    frame.1 frame.2 ht hle (hbound frame (by simp))
  have he : runFrames HandRaisedDetector.fresh (frames ++ [frame])
      = UpdateData (runFrames HandRaisedDetector.fresh frames) frame.1 frame.2 := by
    rw [runFrames_append]; rfl
  rw [he]
  refine ⟨ht.2.1, h1.2.1, h3, h4, fun hlt => ?_⟩
  cases hraw : bothHandsAreRaised frame.1 with
  | false => exact ⟨rfl, h4 hraw⟩
  | true => exact absurd (h3 hraw) (not_le.2 hlt)

/-- Raised hands at 1000 and 1001000 microseconds, then lowered hands at 1500000: the
time span is 1000000 before the last call and zero after it. -/
theorem monotone_accumulator_witness :
    (runFrames HandRaisedDetector.fresh [(handsUp, 1000), (handsUp, 1001000)]).m_handRaisedTimeSpan
      = 1000000 ∧
    (runFrames HandRaisedDetector.fresh
      ([(handsUp, 1000), (handsUp, 1001000)] ++ [(handsDown, 1500000)])).m_handRaisedTimeSpan
      = 0 :=
  ⟨by simp [runFrames, UpdateData, debounce, bootstrapTimestamp, updateKeys,
      bothHandsAreRaised, handsUp, bodyOfY, microseconds, wrapInt64, m_stableTime,
      HandRaisedDetector.fresh],
    (monotone_accumulator [(handsUp, 1000), (handsUp, 1001000)] (handsDown, 1500000)
      (by simp) (by norm_num)).2.2.2.1 bothHandsAreRaised_handsDown⟩

/-! ## The closed form of the time span -/

/-- The closed form of the time span: the sum of `t - t0` over the timestamps `t` of the
frames that follow the first frame of a hold, which is at `t0`. -/
def closedFormSpan (t0 : Nat) (timestamps : List Nat) : Int :=
  (timestamps.map (fun (t : Nat) => (t : Int) - (t0 : Int))).sum

/-- The detector after frame `k` of the run `first :: rest` from a fresh detector; frame 0
is `first`. -/
def stateAfter (first : k4abt_body_t × Nat) (rest : List (k4abt_body_t × Nat)) (k : Nat) :
    HandRaisedDetector :=
  runFrames HandRaisedDetector.fresh (first :: rest.take k)

theorem closedFormSpan_take_succ (t0 : Nat) (rest : List (k4abt_body_t × Nat)) (j : Nat)
    (hj : j < rest.length) :
    closedFormSpan t0 ((rest.take (j + 1)).map Prod.snd)
      = closedFormSpan t0 ((rest.take j).map Prod.snd)
        + (((rest.get ⟨j, hj⟩).2 : Int) - (t0 : Int)) := by
  have h : rest[j]? = some (rest.get ⟨j, hj⟩) := by
    simp [List.getElem?_eq_getElem, hj]
  rw [List.take_succ, h]
  simp only [closedFormSpan, Option.toList, List.map_append, List.map_cons, List.map_nil,
    List.sum_append, List.sum_cons, List.sum_nil, add_zero]

theorem stateAfter_succ (first : k4abt_body_t × Nat) (rest : List (k4abt_body_t × Nat))
    (j : Nat) (hj : j < rest.length) :
    stateAfter first rest (j + 1)
      = UpdateData (stateAfter first rest j) (rest.get ⟨j, hj⟩).1 (rest.get ⟨j, hj⟩).2 := by
  have h : rest[j]? = some (rest.get ⟨j, hj⟩) := by
    simp [List.getElem?_eq_getElem, hj]
  have ht : first :: rest.take (j + 1) = (first :: rest.take j) ++ [rest.get ⟨j, hj⟩] := by
    rw [List.take_succ, h]
    rfl
  rw [stateAfter, ht, runFrames_append]
  rfl

/-- The closed form holds after frame `k` when the closed form stayed at or below the
stable time before frame `k` and no tick value leaves the signed 64-bit range. -/
theorem stateAfter_closed_form (first : k4abt_body_t × Nat)
    (rest : List (k4abt_body_t × Nat))
    (hraw : ∀ f ∈ first :: rest, bothHandsAreRaised f.1 = true)
    (hpos : 0 < first.2) (hlt : ∀ f ∈ first :: rest, (f.2 : Int) < 2 ^ 63) :
    ∀ k : Nat, k ≤ rest.length →
      (∀ j, j ≤ k →
        -2 ^ 63 ≤ closedFormSpan first.2 ((rest.take j).map Prod.snd) ∧
        closedFormSpan first.2 ((rest.take j).map Prod.snd) < 2 ^ 63) →
      (∀ j, j < k → closedFormSpan first.2 ((rest.take j).map Prod.snd) ≤ 2000000) →
      (stateAfter first rest k).m_previousTimestamp = (first.2 : Int) ∧
      (stateAfter first rest k).m_handRaisedTimeSpan
        = closedFormSpan first.2 ((rest.take k).map Prod.snd) ∧
      ((stateAfter first rest k).m_bothHandsAreRaised = true ↔
        closedFormSpan first.2 ((rest.take k).map Prod.snd) > 2000000) := by
  intro k
  induction k with
  | zero =>
    intro _ _ _
    have hm : microseconds first.2 = first.2 :=
      microseconds_of_lt _ (hlt first (List.mem_cons_self _ _))
    obtain ⟨h1, h2, h3⟩ := UpdateData_of_unset HandRaisedDetector.fresh first.1 first.2 rfl rfl
    rw [hraw first (List.mem_cons_self _ _), if_pos rfl, hm] at h3
    have he : stateAfter first rest 0 = UpdateData HandRaisedDetector.fresh first.1 first.2 := by
      simp [stateAfter, runFrames]
    rw [he]
    refine ⟨h3, by simp [h2, closedFormSpan], ?_⟩
    simp [h1, closedFormSpan]
  | succ j ih =>
    intro hk hrange hsmall
    have hj : j < rest.length := by omega
    obtain ⟨i1, i2, i3⟩ := ih (by omega) (fun i hi => hrange i (by omega))
      (fun i hi => hsmall i (by omega))
    have hsj := hsmall j (by omega)
    have hina : (stateAfter first rest j).m_bothHandsAreRaised = false := by
      cases hc : (stateAfter first rest j).m_bothHandsAreRaised with
      | false => rfl
      | true => exact absurd (i3.1 hc) (not_lt.2 hsj)
    have hmem : rest.get ⟨j, hj⟩ ∈ first :: rest :=
      List.mem_cons_of_mem _ (List.get_mem _ _ _)
    have ht := hlt _ hmem
    have h0 := hlt first (List.mem_cons_self _ _)
    have hm : microseconds (rest.get ⟨j, hj⟩).2 = (rest.get ⟨j, hj⟩).2 :=
      microseconds_of_lt _ ht
    obtain ⟨a1, a2, a3⟩ := UpdateData_accumulate (stateAfter first rest j)
      (rest.get ⟨j, hj⟩).1 (rest.get ⟨j, hj⟩).2 (by rw [i1]; omega) hina (hraw _ hmem)
    have hS := closedFormSpan_take_succ first.2 rest j hj
    have hr := hrange (j + 1) (le_refl _)
    have hr0 := hrange j (by omega)
    have hw1 : wrapInt64 (((rest.get ⟨j, hj⟩).2 : Int) - (first.2 : Int))
        = ((rest.get ⟨j, hj⟩).2 : Int) - (first.2 : Int) :=
      wrapInt64_of_mem _ (by omega) (by omega)
    have hw2 : wrapInt64 (closedFormSpan first.2 ((rest.take j).map Prod.snd)
          + (((rest.get ⟨j, hj⟩).2 : Int) - (first.2 : Int)))
        = closedFormSpan first.2 ((rest.take (j + 1)).map Prod.snd) := by
      rw [← hS]
      exact wrapInt64_of_mem _ hr.1 hr.2
    rw [i1, i2, hm, hw1, hw2] at a2 a3
    rw [i1] at a1
    rw [stateAfter_succ first rest j hj]
    exact ⟨a1, a2, a3⟩

/-- C17, on an explicit input: a fresh detector sees raised hands at timestamps 1 and
`2^64 - 1`.  The gesture is not active after the first frame; the closed form after the
second frame is `2^64 - 2`, above 2000000, but the second timestamp is stored as the tick
count -1, the time span is `-1 - 1 = -2`, and the gesture is not active. -/
theorem accumulator_closed_form_counterexample :
    AreBothHandsRaised (stateAfter (handsUp, 1) (heldAt [2 ^ 64 - 1]) 0) = false ∧
    closedFormSpan 1 [2 ^ 64 - 1] = 18446744073709551614 ∧
    (stateAfter (handsUp, 1) (heldAt [2 ^ 64 - 1]) 1).m_handRaisedTimeSpan = -2 ∧
    AreBothHandsRaised (stateAfter (handsUp, 1) (heldAt [2 ^ 64 - 1]) 1) = false := by
  have hm : microseconds (2 ^ 64 - 1) = -1 := by decide
  have hm1 : microseconds 1 = 1 := by decide
  obtain ⟨h1, h2, h3⟩ := UpdateData_of_unset HandRaisedDetector.fresh handsUp 1 rfl rfl
  rw [bothHandsAreRaised_handsUp, if_pos rfl, hm1] at h3
  obtain ⟨_, h5, h6⟩ := UpdateData_accumulate (UpdateData HandRaisedDetector.fresh handsUp 1)
    handsUp (2 ^ 64 - 1) (by rw [h3]; decide) h1 bothHandsAreRaised_handsUp
  have hw : wrapInt64 (0 + wrapInt64 (-1 - 1)) = -2 := by decide
  rw [h2, h3, hm, hw] at h5 h6
  have he0 : stateAfter (handsUp, 1) (heldAt [2 ^ 64 - 1]) 0
      = UpdateData HandRaisedDetector.fresh handsUp 1 := by
    simp only [stateAfter, runFrames, heldAt, List.take_zero, List.foldl_cons, List.foldl_nil]
  have he1 : stateAfter (handsUp, 1) (heldAt [2 ^ 64 - 1]) 1
      = UpdateData (UpdateData HandRaisedDetector.fresh handsUp 1) handsUp (2 ^ 64 - 1) := by
    simp only [stateAfter, runFrames, heldAt, List.map_cons, List.map_nil, List.take_succ_cons,
      List.take_zero, List.foldl_cons, List.foldl_nil]
  rw [he0, he1]
  refine ⟨h1, by norm_num [closedFormSpan], h5, ?_⟩
  unfold AreBothHandsRaised
  cases hc : (UpdateData (UpdateData HandRaisedDetector.fresh handsUp 1) handsUp
      (2 ^ 64 - 1)).m_bothHandsAreRaised with
  | false => rfl
  | true => exact absurd (h6.1 hc) (by decide)

/-- C17 as amended (closed form of the accumulator as implemented): a fresh detector sees
frames with both wrists above the head at timestamps `t0, t1, ...` with `t0` not zero, all
below `2^63`, and the closed form `S j`, the sum of `ti - t0` over `i = 1..j`, stays in the
signed 64-bit range for `j <= k`.  If the gesture was not active before frame `k`, then
after frame `k` the previous timestamp is `t0`, the time span is `S k`, and the gesture is
active exactly if `S k` exceeds 2 000 000.  And if `S j` is at most 2 000 000 for all
`j < k`, the gesture is not active before frame `k`; so the gesture first becomes active
at the least `k` whose closed form exceeds 2 000 000. -/
theorem accumulator_closed_form (first : k4abt_body_t × Nat)
    (rest : List (k4abt_body_t × Nat)) (k : Nat)
    (hraw : ∀ f ∈ first :: rest,
      jointY f.1 .K4ABT_JOINT_WRIST_LEFT < jointY f.1 .K4ABT_JOINT_HEAD ∧
      jointY f.1 .K4ABT_JOINT_WRIST_RIGHT < jointY f.1 .K4ABT_JOINT_HEAD)
    (hpos : first.2 ≠ 0) (hlt : ∀ f ∈ first :: rest, (f.2 : Int) < 2 ^ 63)
    (hk : k ≤ rest.length)
    (hrange : ∀ j, j ≤ k →
      -2 ^ 63 ≤ closedFormSpan first.2 ((rest.take j).map Prod.snd) ∧
      closedFormSpan first.2 ((rest.take j).map Prod.snd) < 2 ^ 63) :
    ((∀ j, j < k → AreBothHandsRaised (stateAfter first rest j) = false) →
      (stateAfter first rest k).m_previousTimestamp = (first.2 : Int) ∧
      (stateAfter first rest k).m_handRaisedTimeSpan
        = closedFormSpan first.2 ((rest.take k).map Prod.snd) ∧
      (AreBothHandsRaised (stateAfter first rest k) = true ↔
        closedFormSpan first.2 ((rest.take k).map Prod.snd) > 2000000)) ∧
    ((∀ j, j < k → closedFormSpan first.2 ((rest.take j).map Prod.snd) ≤ 2000000) →
      (∀ j, j < k → AreBothHandsRaised (stateAfter first rest j) = false) ∧
      (AreBothHandsRaised (stateAfter first rest k) = true ↔
        closedFormSpan first.2 ((rest.take k).map Prod.snd) > 2000000)) := by
  have hraw2 : ∀ f ∈ first :: rest, bothHandsAreRaised f.1 = true := fun f hf =>
    (bothHandsAreRaised_iff f.1).2 (hraw f hf)
  have hpos2 : 0 < first.2 := Nat.pos_of_ne_zero hpos
  have haux := stateAfter_closed_form first rest hraw2 hpos2 hlt
  have hB : (∀ j, j < k → closedFormSpan first.2 ((rest.take j).map Prod.snd) ≤ 2000000) →
      ∀ j, j < k → AreBothHandsRaised (stateAfter first rest j) = false := by
    intro hsmall j hj
    obtain ⟨_, _, h3⟩ := haux j (by omega) (fun i hi => hrange i (by omega))
      (fun i hi => hsmall i (by omega))
    unfold AreBothHandsRaised
    cases hc : (stateAfter first rest j).m_bothHandsAreRaised with
    | false => rfl
    | true => exact absurd (h3.1 hc) (not_lt.2 (hsmall j hj))
  refine ⟨fun hinactive => ?_, fun hsmall => ⟨hB hsmall, ?_⟩⟩
  · have hs : ∀ j, j < k →
        closedFormSpan first.2 ((rest.take j).map Prod.snd) ≤ 2000000 := by
      intro j
      induction j using Nat.strong_induction_on with
      | _ j ih =>
        intro hj
        obtain ⟨_, _, h3⟩ := haux j (by omega) (fun i hi => hrange i (by omega))
          (fun i hi => ih i hi (by omega))
        by_contra hc
        have hact := h3.2 (not_le.1 hc)
        have hin := hinactive j hj
        unfold AreBothHandsRaised at hin
        rw [hin] at hact
        exact Bool.noConfusion hact
    exact haux k hk hrange hs
  · exact (haux k hk hrange hsmall).2.2

/-- Raised hands at 1000, 1001000, 500 and 1501000 microseconds: the closed forms are
0, 1000000, 999500 and 2499500, and the gesture is active after the last frame. -/
theorem accumulator_closed_form_witness :
    closedFormSpan 1000 [1001000, 500, 1501000] = 2499500 ∧
    AreBothHandsRaised (stateAfter (handsUp, 1000) (heldAt [1001000, 500, 1501000]) 3)
      = true :=
  ⟨by norm_num [closedFormSpan],
    ((accumulator_closed_form (handsUp, 1000) (heldAt [1001000, 500, 1501000]) 3
      (by norm_num [heldAt, jointY, handsUp, bodyOfY]) (by decide)
      (by norm_num [heldAt]) (by simp [heldAt])
      (fun j hj => by
        interval_cases j <;> norm_num [heldAt, closedFormSpan])).2
      (fun j hj => by
        interval_cases j <;> norm_num [heldAt, closedFormSpan])).2.2
      (by norm_num [heldAt, closedFormSpan])⟩

/-! ## Command line arguments (main.cpp) -/

/-- The members of `k4abt_tracker_configuration_t` that `ProcessArguments` writes.  The
struct is declared in a header of the Body Tracking SDK, outside the repository; the type
of `processing_mode` is the parameter `Mode`. -/
structure k4abt_tracker_configuration_t (Mode : Type) where
  processing_mode : Mode
  model_path : String

/-- The two enumerators of the processing mode that the non-Windows build of
`ProcessArguments` names (main.cpp:79, 83).  They are declared in the SDK header and are
taken as parameters. -/
structure ProcessingModes (Mode : Type) where
  K4ABT_TRACKER_PROCESSING_MODE_GPU_TENSORRT : Mode
  K4ABT_TRACKER_PROCESSING_MODE_GPU_CUDA : Mode

/-- The loop of `ProcessArguments` (main.cpp:75-110, without the `_WIN32` branches) from
index `i` on; the list holds `argv[i]`, ..., `argv[argc - 1]`.  The result is the returned
`bool` and the configuration, which is passed by reference.  The messages printed on the
way are not modelled. -/
def processFrom {Mode : Type} (modes : ProcessingModes Mode) :
    k4abt_tracker_configuration_t Mode → List String →
      Bool × k4abt_tracker_configuration_t Mode
  | tracker_config, [] => (true, tracker_config)
  | tracker_config, arg :: rest =>
    if arg = "TensorRT" then
      processFrom modes
        { tracker_config with
          processing_mode := modes.K4ABT_TRACKER_PROCESSING_MODE_GPU_TENSORRT } rest
    else if arg = "CUDA" then
      processFrom modes
        { tracker_config with
          processing_mode := modes.K4ABT_TRACKER_PROCESSING_MODE_GPU_CUDA } rest
    else if arg = "-model" then
      match rest with
      | path :: rest2 => processFrom modes { tracker_config with model_path := path } rest2
      | [] => (false, tracker_config)
    else
      (false, tracker_config)

/-- The function `ProcessArguments` of main.cpp (lines 71-112): the loop starts at index 1;
`argc` is the length of `argv`. -/
def ProcessArguments {Mode : Type} (modes : ProcessingModes Mode)
    (tracker_config : k4abt_tracker_configuration_t Mode) (argv : List String) :
    Bool × k4abt_tracker_configuration_t Mode :=
  processFrom modes tracker_config (argv.drop 1)

/-- The token read by one step of a left-to-right scan of the arguments: a processing
mode, or `-model` together with the argument after it. -/
inductive ScannedToken (Mode : Type) where
  | mode (m : Mode)
  | model (path : String)

/-- The mode named by a mode token. -/
def ScannedToken.mode? {Mode : Type} : ScannedToken Mode → Option Mode
  | .mode m => some m
  | .model _ => none

/-- The path carried by a `-model` token. -/
def ScannedToken.path? {Mode : Type} : ScannedToken Mode → Option String
  | .mode _ => none
  | .model path => some path

/-- The arguments `args` scan, left to right, into the tokens `tokens`: every scanned
argument is `CUDA`, `TensorRT`, or a `-model` followed by another argument, which is
consumed as the model path. -/
inductive Scans {Mode : Type} (modes : ProcessingModes Mode) :
    List String → List (ScannedToken Mode) → Prop where
  | done : Scans modes [] []
  | tensorrt (rest : List String) (tokens : List (ScannedToken Mode)) :
      Scans modes rest tokens →
      Scans modes ("TensorRT" :: rest)
        (.mode modes.K4ABT_TRACKER_PROCESSING_MODE_GPU_TENSORRT :: tokens)
  | cuda (rest : List String) (tokens : List (ScannedToken Mode)) :
      Scans modes rest tokens →
      Scans modes ("CUDA" :: rest)
        (.mode modes.K4ABT_TRACKER_PROCESSING_MODE_GPU_CUDA :: tokens)
  | model (path : String) (rest : List String) (tokens : List (ScannedToken Mode)) :
      Scans modes rest tokens →
      Scans modes ("-model" :: path :: rest) (.model path :: tokens)

/-- The mode named by the last mode token, if there is one. -/
def lastMode {Mode : Type} (tokens : List (ScannedToken Mode)) : Option Mode :=
  (tokens.filterMap ScannedToken.mode?).getLast?

/-- The argument after the last `-model`, if there is one. -/
def lastModelPath {Mode : Type} (tokens : List (ScannedToken Mode)) : Option String :=
  (tokens.filterMap ScannedToken.path?).getLast?

/-- The processing modes as strings, for examples. -/
def modeNames : ProcessingModes String where
  K4ABT_TRACKER_PROCESSING_MODE_GPU_TENSORRT := "GPU_TENSORRT"
  K4ABT_TRACKER_PROCESSING_MODE_GPU_CUDA := "GPU_CUDA"

/-- The configuration after the writes of one token. -/
def ScannedToken.write {Mode : Type} (tracker_config : k4abt_tracker_configuration_t Mode) :
    ScannedToken Mode → k4abt_tracker_configuration_t Mode
  | .mode m => { tracker_config with processing_mode := m }
  | .model path => { tracker_config with model_path := path }

section arguments

variable {Mode : Type} (modes : ProcessingModes Mode)

/-- One iteration of the loop. -/
theorem processFrom_cons (tracker_config : k4abt_tracker_configuration_t Mode) (arg : String)
    (rest : List String) :
    processFrom modes tracker_config (arg :: rest) =
      if arg = "TensorRT" then
        processFrom modes
          { tracker_config with
            processing_mode := modes.K4ABT_TRACKER_PROCESSING_MODE_GPU_TENSORRT } rest
      else if arg = "CUDA" then
        processFrom modes
          { tracker_config with
            processing_mode := modes.K4ABT_TRACKER_PROCESSING_MODE_GPU_CUDA } rest
      else if arg = "-model" then
        match rest with
        | path :: rest2 => processFrom modes { tracker_config with model_path := path } rest2
        | [] => (false, tracker_config)
      else
        (false, tracker_config) := by
  cases rest <;> simp [processFrom]

/-- Arguments that scan are processed to the end, and the loop then continues with what
follows them. -/
theorem processFrom_of_scans {args : List String} {tokens : List (ScannedToken Mode)}
    (h : Scans modes args tokens) :
    ∀ (tracker_config : k4abt_tracker_configuration_t Mode) (more : List String),
      processFrom modes tracker_config (args ++ more)
        = processFrom modes (tokens.foldl ScannedToken.write tracker_config) more := by
  induction h with
  | done => intro c more; rfl
  | tensorrt rest tokens _ ih =>
    intro c more
    rw [List.cons_append, processFrom_cons, if_pos rfl, List.foldl_cons]
    exact ih _ more
  | cuda rest tokens _ ih =>
    intro c more
    have h1 : ¬ ("CUDA" = "TensorRT") := by decide
    rw [List.cons_append, processFrom_cons, if_neg h1, if_pos rfl, List.foldl_cons]
    exact ih _ more
  | model path rest tokens _ ih =>
    intro c more
    have h1 : ¬ ("-model" = "TensorRT") := by decide
    have h2 : ¬ ("-model" = "CUDA") := by decide
    rw [List.cons_append, List.cons_append, processFrom_cons, if_neg h1, if_neg h2,
      if_pos rfl, List.foldl_cons]
    exact ih _ more

/-- When the loop returns true, the arguments scan. -/
theorem scans_of_processFrom (n : Nat) :
    ∀ (args : List String) (tracker_config : k4abt_tracker_configuration_t Mode),
      args.length ≤ n → (processFrom modes tracker_config args).1 = true →
      ∃ tokens, Scans modes args tokens := by
  induction n with
  | zero =>
    intro args c hlen _
    cases args with
    | nil => exact ⟨[], Scans.done⟩
    | cons a rest => simp at hlen
  | succ n ih =>
    intro args c hlen h
    cases args with
    | nil => exact ⟨[], Scans.done⟩
    | cons a rest =>
      simp only [List.length_cons] at hlen
      rw [processFrom_cons] at h
      by_cases h1 : a = "TensorRT"
      · subst h1
        rw [if_pos rfl] at h
        obtain ⟨tokens, ht⟩ := ih rest _ (by omega) h
        exact ⟨_, Scans.tensorrt rest tokens ht⟩
      · rw [if_neg h1] at h
        by_cases h2 : a = "CUDA"
        · subst h2
          rw [if_pos rfl] at h
          obtain ⟨tokens, ht⟩ := ih rest _ (by omega) h
          exact ⟨_, Scans.cuda rest tokens ht⟩
        · rw [if_neg h2] at h
          by_cases h3 : a = "-model"
          · subst h3
            rw [if_pos rfl] at h
            cases rest with
            | nil => simp at h
            | cons path rest2 =>
              simp only [List.length_cons] at hlen
              obtain ⟨tokens, ht⟩ := ih rest2 _ (by omega) h
              exact ⟨_, Scans.model path rest2 tokens ht⟩
          · rw [if_neg h3] at h
            simp at h

/-- The processing mode after the writes of the tokens is that of the last mode token. -/
theorem foldl_write_processing_mode (tokens : List (ScannedToken Mode)) :
    ∀ tracker_config : k4abt_tracker_configuration_t Mode,
      (tokens.foldl ScannedToken.write tracker_config).processing_mode
        = (lastMode tokens).getD tracker_config.processing_mode := by
  induction tokens with
  | nil => intro c; rfl
  | cons tok rest ih =>
    intro c
    rw [List.foldl_cons, ih]
    cases tok with
    | mode m =>
      simp only [ScannedToken.write, lastMode, List.filterMap_cons, ScannedToken.mode?,
        List.getLast?_cons, Option.getD_some]
    | model path =>
      simp only [ScannedToken.write, lastMode, List.filterMap_cons, ScannedToken.mode?]

/-- The model path after the writes of the tokens is that of the last `-model` token. -/
theorem foldl_write_model_path (tokens : List (ScannedToken Mode)) :
    ∀ tracker_config : k4abt_tracker_configuration_t Mode,
      (tokens.foldl ScannedToken.write tracker_config).model_path
        = (lastModelPath tokens).getD tracker_config.model_path := by
  induction tokens with
  | nil => intro c; rfl
  | cons tok rest ih =>
    intro c
    rw [List.foldl_cons, ih]
    cases tok with
    | mode m =>
      simp only [ScannedToken.write, lastModelPath, List.filterMap_cons, ScannedToken.path?]
    | model path =>
      simp only [ScannedToken.write, lastModelPath, List.filterMap_cons, ScannedToken.path?,
        List.getLast?_cons, Option.getD_some]

end arguments

/-- C16 (ProcessArguments acceptance, non-Windows build): `ProcessArguments` returns true
exactly if the arguments after `argv[0]` scan left to right into tokens that are `CUDA`,
`TensorRT`, or `-model` followed by another argument, which is consumed as the model path.
When they scan, `processing_mode` is the mode named by the last mode token, or its input
value if there is none, and `model_path` is the argument after the last `-model`, or its
input value if there is none.  It returns false when `-model` is the last argument after
a scanned part, and when an argument other than `CUDA`, `TensorRT` and `-model` comes
after a scanned part. -/
theorem ProcessArguments_accepts {Mode : Type} (modes : ProcessingModes Mode)
    (tracker_config : k4abt_tracker_configuration_t Mode) (argv : List String) :
    ((ProcessArguments modes tracker_config argv).1 = true ↔
      ∃ tokens, Scans modes (argv.drop 1) tokens) ∧
    (∀ tokens, Scans modes (argv.drop 1) tokens →
      (ProcessArguments modes tracker_config argv).2.processing_mode
        = (lastMode tokens).getD tracker_config.processing_mode ∧
      (ProcessArguments modes tracker_config argv).2.model_path
        = (lastModelPath tokens).getD tracker_config.model_path) ∧
    (∀ (program : String) (scanned : List String) (tokens : List (ScannedToken Mode)),
      Scans modes scanned tokens →
      (ProcessArguments modes tracker_config (program :: (scanned ++ ["-model"]))).1
        = false) ∧
    (∀ (program : String) (scanned : List String) (tokens : List (ScannedToken Mode))
      (other : String) (more : List String),
      Scans modes scanned tokens →
      other ≠ "CUDA" → other ≠ "TensorRT" → other ≠ "-model" →
      (ProcessArguments modes tracker_config (program :: (scanned ++ other :: more))).1
        = false) := by
  have hrun : ∀ (args : List String) (tokens : List (ScannedToken Mode)),
      Scans modes args tokens →
      processFrom modes tracker_config args
        = (true, tokens.foldl ScannedToken.write tracker_config) := fun args tokens h => by
    have := processFrom_of_scans modes h tracker_config []
    rw [List.append_nil] at this
    rw [this]
    rfl
  refine ⟨⟨fun h => scans_of_processFrom modes _ _ _ (le_refl _) h, fun ⟨tokens, h⟩ => ?_⟩,
    fun tokens h => ?_, fun program scanned tokens h => ?_,
    fun program scanned tokens other more h h1 h2 h3 => ?_⟩
  · simp only [ProcessArguments, hrun _ tokens h]
  · simp only [ProcessArguments, hrun _ tokens h]
    exact ⟨foldl_write_processing_mode tokens tracker_config,
      foldl_write_model_path tokens tracker_config⟩
  · have hn1 : ¬ ("-model" = "TensorRT") := by decide
    have hn2 : ¬ ("-model" = "CUDA") := by decide
    simp only [ProcessArguments, List.drop_succ_cons, List.drop_zero]
    rw [processFrom_of_scans modes h, processFrom_cons, if_neg hn1, if_neg hn2, if_pos rfl]
  · simp only [ProcessArguments, List.drop_succ_cons, List.drop_zero]
    rw [processFrom_of_scans modes h, processFrom_cons, if_neg h2, if_neg h1, if_neg h3]

/-- The arguments `CUDA -model m.onnx TensorRT` are accepted; the mode is that of
`TensorRT`, the last mode token, and the model path is `m.onnx`. -/
theorem ProcessArguments_accepts_witness :
    (ProcessArguments modeNames ⟨"GPU", "default.onnx"⟩
      ["prog", "CUDA", "-model", "m.onnx", "TensorRT"]).1 = true ∧
    (ProcessArguments modeNames ⟨"GPU", "default.onnx"⟩
      ["prog", "CUDA", "-model", "m.onnx", "TensorRT"]).2.processing_mode = "GPU_TENSORRT" ∧
    (ProcessArguments modeNames ⟨"GPU", "default.onnx"⟩
      ["prog", "CUDA", "-model", "m.onnx", "TensorRT"]).2.model_path = "m.onnx" ∧
    (ProcessArguments modeNames ⟨"GPU", "default.onnx"⟩
      ("prog" :: (["CUDA"] ++ ["-model"]))).1 = false :=
  ⟨(ProcessArguments_accepts modeNames ⟨"GPU", "default.onnx"⟩
      ["prog", "CUDA", "-model", "m.onnx", "TensorRT"]).1.2
      ⟨_, Scans.cuda _ _ (Scans.model "m.onnx" _ _ (Scans.tensorrt _ _ Scans.done))⟩,
    ((ProcessArguments_accepts modeNames ⟨"GPU", "default.onnx"⟩
      ["prog", "CUDA", "-model", "m.onnx", "TensorRT"]).2.1 _
      (Scans.cuda _ _ (Scans.model "m.onnx" _ _ (Scans.tensorrt _ _ Scans.done)))).1,
    ((ProcessArguments_accepts modeNames ⟨"GPU", "default.onnx"⟩
      ["prog", "CUDA", "-model", "m.onnx", "TensorRT"]).2.1 _
      (Scans.cuda _ _ (Scans.model "m.onnx" _ _ (Scans.tensorrt _ _ Scans.done)))).2,
    (ProcessArguments_accepts modeNames ⟨"GPU", "default.onnx"⟩ []).2.2.1 "prog" ["CUDA"] _
      (Scans.cuda _ _ Scans.done)⟩

end JumpAnalysis
